import Mathlib

/-!
Verification development for the crawlAgent resumable extraction pipeline.

The Python sources are shallowly embedded:

* `src/config/settings.py`  — flow-slot allocation (`Settings.get_next_flow_id`,
  `Settings.get_flow_output_dir`);
* `src/utils/checkpoint.py` — the per-slot artifact store (`CheckpointManager`);
* `src/main.py`             — the pipeline executor
  (`HTMLAgentSystem._process_html_files` and the two dynamic executors);
* `src/agents/code_generator.py` — the retry/fallback wrapper around the
  code-generation API (`CodeGeneratorAgent.generate_extraction_code`).

External AI collaborators, dynamically loaded generated code and raw file
I/O are modelled as parameters of an explicit environment record; Python
exceptions are modelled with `Except`, `None` with `Option`, and the output
root with an explicit directory listing in iteration order.  Machine-level
details that no claim touches (console logging, prompt texts, write-only
observability snapshots such as `intermediate_results.json`) are omitted and
noted at the definition they would belong to.
-/

namespace CrawlAgent

/-! ### Decimal rendering and parsing

Python renders flow ids with `f'flow{flow_id}'` (decimal) and parses them
back with `int(item.name[4:])`.  We model decimal rendering with a
fuel-structural digit accumulator (so concrete values reduce by `rfl`) and
`int(...)` with `pyInt` below. -/

/-- The character for a decimal digit `d < 10`. -/
def decChar (d : Nat) : Char := Char.ofNat (48 + d)

/-- Digit value of a character, `none` when it is not a decimal digit. -/
def decVal? (c : Char) : Option Nat :=
  if 48 ≤ c.toNat ∧ c.toNat ≤ 57 then some (c.toNat - 48) else none

/-- Whether a character is a decimal digit. -/
def isDecDigit (c : Char) : Bool := decide (48 ≤ c.toNat ∧ c.toNat ≤ 57)

/-- Digit accumulator for decimal rendering; `fuel` bounds the recursion so
that the definition is structural and reduces inside the kernel. -/
def natDigitsAux : Nat → Nat → List Char → List Char
  | 0, _, acc => acc
  | fuel + 1, n, acc =>
    if n < 10 then decChar n :: acc
    else natDigitsAux fuel (n / 10) (decChar (n % 10) :: acc)

/-- The decimal digits of `n`, most significant first. -/
def natDigits (n : Nat) : List Char := natDigitsAux (n + 1) n []

/-- Decimal rendering of a natural number. -/
def natToStr (n : Nat) : String := String.mk (natDigits n)

/-- Decimal rendering of an integer (Python `str` on `int`). -/
def intToStr (i : Int) : String :=
  if i < 0 then String.mk ('-' :: natDigits i.natAbs) else natToStr i.natAbs

/-- Value of a digit list read most-significant-first, on top of `acc`. -/
def readDigits (acc : Nat) (cs : List Char) : Nat :=
  cs.foldl (fun a c => a * 10 + ((decVal? c).getD 0)) acc

/-- Parse a list of characters that must consist entirely of decimal digits,
at least one; anything else is `none`.  This is the digit core shared by
`pyInt` and the JSON number parser. -/
def parseAllDigits (cs : List Char) : Option Nat :=
  if cs.isEmpty then none
  else if cs.all isDecDigit then some (readDigits 0 cs) else none

/-- Whitespace as stripped by Python `int(str)` around the number. -/
def isPySpace (c : Char) : Bool :=
  c = ' ' ∨ c = '\t' ∨ c = '\n' ∨ c = '\r'

/-- Python `int(s)` on the character list of `s`: strip surrounding
whitespace, allow one optional sign, then a non-empty run of decimal digits;
every other input raises `ValueError`, modelled as `none`.  (Underscore
digit grouping accepted by Python 3.6+ is not modelled; no claim depends on
it.) -/
def pyIntChars (cs : List Char) : Option Int :=
  let stripped := ((cs.dropWhile isPySpace).reverse.dropWhile isPySpace).reverse
  if stripped.head? = some '+' then (parseAllDigits stripped.tail).map Int.ofNat
  else if stripped.head? = some '-' then
    (parseAllDigits stripped.tail).map (fun n => -(Int.ofNat n : Int))
  else (parseAllDigits stripped).map Int.ofNat

/-- Python `int(s)`, `none` on `ValueError`. -/
def pyInt (s : String) : Option Int := pyIntChars s.data

/-! ### Payloads and checkpoint records

The opaque JSON blobs produced by the AI collaborators (per-document
analysis results, the synthesized summary, the schema, validation details,
the content analysis) are modelled by an abstract payload type `Val`; the
pipeline never inspects them, it only stores and forwards them.  Generated
source text is modelled by `Code`, which keeps just the structure the
pipeline does inspect: whether the text contains the fallback-template
marker (main.py line 1037 checks for the substrings written by
`CodeGeneratorAgent._generate_fallback_code`, code_generator.py line 292)
and whether the validation-marker comment has been prepended
(main.py lines 1208-1229). -/

/-- Opaque collaborator payload. -/
abbrev Val := Nat

/-- Generated source text, by provenance.  `api` is text returned by the
generation API, `fallbackTemplate` is `_generate_fallback_code`'s template
(which contains the literal marker "API generation failed ... fallback
template"), `fixedBy` is text returned by the AI fixer, `markedValidated`
is the same text with the validation-marker comment prepended. -/
inductive Code where
  | api (v : Val)
  | fallbackTemplate (schema : Option Val)
  | fixedBy (v : Val)
  | markedValidated (c : Code)
deriving DecidableEq, Repr

/-- Whether the text contains "API generation failed" or "fallback
template" (main.py line 1037).  The fallback template contains both
markers; prepending a comment keeps them; API- or fixer-produced text does
not contain them. -/
def Code.hasFallbackMarker : Code → Bool
  | .api _ => false
  | .fallbackTemplate _ => true
  | .fixedBy _ => false
  | .markedValidated c => c.hasFallbackMarker

/-- The dictionary returned by `CodeValidatorAgent.validate_code`
(code_validator.py lines 76-125), restricted to the keys main.py reads:
the three issue lists, the warnings, and the truthiness payload of
"fixed_code".  The "valid" and "suggestions" keys are never read by the
executor and are omitted. -/
structure ValidationResult where
  synErrors : List Val
  robustnessIssues : List Val
  interfaceIssues : List Val
  warnings : List Val
  fixedCode : Option Val
deriving DecidableEq, Repr

/-- The dictionary returned by `MarkdownConverterAgent.analyze_content_fields`,
restricted to what main.py reads: whether the "error" key is present
(main.py line 1467) and the rest of the payload. -/
structure ContentAnalysis where
  hasError : Bool
  val : Val
deriving DecidableEq, Repr

/-- The `data` dictionary of a checkpoint.  One optional field per key that
any `save_checkpoint` call site writes or any reader `get`s; `none` models
an absent key.  The two failure flags are read with `.get(...)`, whose
falsy default makes an absent key equal to `False`, so they are plain
booleans. -/
structure CkptData where
  analysis_results : Option (List Val) := none
  visual_results : Option (List Val) := none
  synthesized : Option Val := none
  schema : Option Val := none
  code : Option Code := none
  validation : Option ValidationResult := none
  file_identifiers : Option (List String) := none
  errMsg : Option String := none
  code_generation_failed : Bool := false
  validation_failed : Bool := false
  content_analysis : Option ContentAnalysis := none
  markdown_converter_code : Option Code := none
  json_files_count : Option Nat := none
  markdown_conversion_failed : Bool := false
deriving DecidableEq, Repr

/-- A checkpoint record `{step, timestamp, data, metadata}`
(checkpoint.py lines 25-30).  Every call site passes no metadata, so the
always-empty `metadata` dictionary is omitted.  The timestamp is an
abstract tick from a clock threaded through the model (the ISO timestamp
`datetime.now().isoformat()`). -/
structure Checkpoint where
  step : String
  timestamp : Nat
  data : CkptData
deriving DecidableEq, Repr

/-! ### The artifact store: `CheckpointManager` (src/utils/checkpoint.py)

`save_checkpoint` (lines 23-37) opens `checkpoint.json` itself with
`open(path, 'w')` — which truncates the file in place — and then streams
`json.dump` into it.  To settle the atomicity claim we model the call as
the sequence of file-system effects it performs on the checkpoint slot, and
crashes as stopping after a prefix of that sequence. -/

/-- The on-disk state of a slot's `checkpoint.json` as a later reader finds
it: missing, present but truncated / partially written (so not valid JSON),
or a complete serialized record. -/
inductive CkptFileState where
  | absent
  | truncated
  | complete (c : Checkpoint)
deriving DecidableEq, Repr

/-- One file-system effect on the checkpoint slot.  `renameInto` (an atomic
rename of a fully-written temporary onto the slot) is the effect the
write-to-temp-then-rename discipline would use; it is listed so the claim
can be stated, but `save_checkpoint` never performs it. -/
inductive FsWriteOp where
  | openTruncate
  | writeBody (c : Checkpoint)
  | renameInto (c : Checkpoint)
deriving DecidableEq, Repr

/-- The effects of `CheckpointManager.save_checkpoint(step, data)`
(checkpoint.py lines 23-37): `open(self.checkpoint_path, 'w')` truncates
the checkpoint file in place, then `json.dump` writes the serialized
record.  There is no temporary file and no rename.  (A write error is
caught and logged, lines 36-37; the effect list models the successful
write, and a crash is a prefix of it.) -/
def save_checkpoint_ops (step : String) (ts : Nat) (data : CkptData) : List FsWriteOp :=
  [FsWriteOp.openTruncate, FsWriteOp.writeBody { step := step, timestamp := ts, data := data }]

/-- Effect of one file-system operation on the slot's checkpoint file. -/
def applyWriteOp : CkptFileState → FsWriteOp → CkptFileState
  | _, .openTruncate => .truncated
  | _, .writeBody c => .complete c
  | _, .renameInto c => .complete c

/-- Replay a sequence of file-system operations; a crash at any point
leaves the state after some prefix. -/
def runWriteOps (st : CkptFileState) (ops : List FsWriteOp) : CkptFileState :=
  ops.foldl applyWriteOp st

/-- `json.load` on the checkpoint path: raises when the file is missing or
does not deserialize. -/
def jsonLoadCkpt : CkptFileState → Except String Checkpoint
  | .absent => .error "No such file or directory"
  | .truncated => .error "Expecting value"
  | .complete c => .ok c

/-- `CheckpointManager.load_checkpoint` (checkpoint.py lines 39-51): if the
file does not exist return `None`; otherwise deserialize inside
`try/except` — any failure is logged and becomes `None`. -/
def load_checkpoint (st : CkptFileState) : Option Checkpoint :=
  if st = CkptFileState.absent then none
  else
    match jsonLoadCkpt st with
    | .ok c => some c
    | .error _ => none

/-! ### Flow slots and the output root

A flow slot `flow{N}` holds one checkpoint file plus the per-step artifact
files the pipeline later reads back: the `*_result.json` files written by
`save_step_result`, `extraction_schema.json`, `extraction_code.py`,
`markdown_converter.py`, `code_validation_result.json`, and the
`extraction_results/` directory of per-document JSON outputs.  Write-only
observability files (`intermediate_results.json`, the two `*_summary.json`
files, `markdown_output/`) are never read back by the executor and are not
modelled. -/

/-- The files of one flow slot; `none` is a missing file. -/
structure Slot where
  checkpoint : CkptFileState := .absent
  step1Result : Option (List Val) := none
  step2Result : Option (List Val) := none
  step3Result : Option Val := none
  step4Result : Option Val := none
  schemaFile : Option Val := none
  codeFile : Option Code := none
  extractionResults : Option (List Val) := none
  validationFile : Option ValidationResult := none
  mdCodeFile : Option Code := none
deriving DecidableEq, Repr

/-- A slot with no files, as `mkdir` leaves it. -/
def Slot.empty : Slot := {}

/-- One entry of the output root's directory listing, as
`Settings.OUTPUT_DIR.iterdir()` yields it: a name, whether it is a
directory, and (for directories) its contents. -/
structure Entry where
  name : String
  isDir : Bool
  slot : Slot
deriving DecidableEq, Repr

/-- The output root.  `entries` is the directory listing in the order
`iterdir()` yields it (the OS order; directories the model creates are
appended at the end).  `clock` is the timestamp source for
`save_checkpoint`. -/
structure FS where
  outputExists : Bool
  clock : Nat
  entries : List Entry
deriving DecidableEq, Repr

/-- An output root that does not exist yet. -/
def FS.empty : FS := { outputExists := false, clock := 0, entries := [] }

/-- String equality on the character lists (kernel-reducible; `String`
equality is equality of the lists). -/
def streq (a b : String) : Bool := a.data == b.data

/-- Python `str.startswith`, at the character-list level. -/
def strStarts (s p : String) : Bool := p.data.isPrefixOf s.data

/-- The directory name of flow slot `i` (`f'flow{flow_id}'`,
settings.py line 67). -/
def flowName (i : Int) : String := String.mk ('f' :: 'l' :: 'o' :: 'w' :: (intToStr i).data)

/-- Whether the root holds a directory of the given name. -/
def FS.hasDir (fs : FS) (nm : String) : Bool :=
  fs.entries.any fun e => e.isDir && streq e.name nm

/-- `Settings.get_flow_output_dir(flow_id)` (settings.py lines 56-69):
`mkdir(parents=True, exist_ok=True)` — creates the output root and the
slot directory when missing; an existing slot is untouched.  A fresh
directory appears at the end of the iteration order. -/
def FS.ensureFlowDir (fs : FS) (i : Int) : FS :=
  if fs.hasDir (flowName i) then { fs with outputExists := true }
  else
    { fs with
        outputExists := true
        entries := fs.entries ++ [{ name := flowName i, isDir := true, slot := Slot.empty }] }

/-- The slot of flow `i` (empty when the directory is missing; the
pipeline only reads a slot after `ensureFlowDir`). -/
def FS.flowSlot (fs : FS) (i : Int) : Slot :=
  ((fs.entries.find? fun e => e.isDir && streq e.name (flowName i)).map Entry.slot).getD Slot.empty

/-- Update the slot of flow `i` in place. -/
def FS.updFlow (fs : FS) (i : Int) (f : Slot → Slot) : FS :=
  { fs with
      entries := fs.entries.map fun e =>
        if e.isDir && streq e.name (flowName i) then { e with slot := f e.slot } else e }

/-- `save_checkpoint` on slot `i` in the crash-free run semantics: the
slot's checkpoint file ends complete and the clock ticks.  (The
operation-level model `save_checkpoint_ops` exhibits the intermediate
states of the same call.) -/
def FS.saveCkpt (fs : FS) (i : Int) (step : String) (data : CkptData) : FS :=
  let fs' := fs.updFlow i fun s =>
    { s with checkpoint := .complete { step := step, timestamp := fs.clock, data := data } }
  { fs' with clock := fs.clock + 1 }

/-- The parsed trailing integer of a directory entry matching the
flow-slot naming pattern (settings.py lines 85-93): directories whose name
starts with "flow", with `int(item.name[4:])`; a name whose tail is not a
valid integer is skipped. -/
def flowNum? (e : Entry) : Option Int :=
  if e.isDir && strStarts e.name "flow" then pyIntChars (e.name.data.drop 4) else none

/-- `Settings.get_next_flow_id` (settings.py lines 71-99): `1` when the
output root does not exist or no parsable flow directory exists, otherwise
the maximum parsed id plus one (`max(existing_flows) + 1`). -/
def get_next_flow_id (fs : FS) : Int :=
  if fs.outputExists = false then 1
  else
    match fs.entries.filterMap flowNum? with
    | [] => 1
    | x :: xs => xs.foldl max x + 1

/-! ### The pipeline executor (src/main.py, `HTMLAgentSystem._process_html_files`)

The executor is embedded as a function over the output root.  Its effects
are the file-system state, an event trace recording every collaborator
call and every dynamic execution of generated code, and Python exceptions.

Conventions used throughout the embedding:

* an input document is its identifier string (the source threads
  `html_file['content']` and the `url`/`path` identifier together; the
  collaborators are opaque in both, so one string stands for the pair);
* `dict.get(key, default)` on checkpoint data is translated as
  `field <|> default` — exact whenever the stored value is not `None`,
  which holds for every checkpoint the executor itself writes;
* calls into external collaborators that catch all their own exceptions
  (`AnalyzerAgent.analyze_html_structure`, `VisualAnalyzer`,
  `Orchestrator.generate_final_schema`) are total functions, calls that
  can propagate an exception (`Orchestrator.coordinate_analysis`, whose
  API call sits outside any `try`; `CodeValidatorAgent.validate_code` /
  `fix_code`; raw file writes) return `Except`. -/

/-- One observable action of a run: a collaborator call or a dynamic
execution of generated code. -/
inductive Ev where
  | analyzeDoc (d : String)
  | visualDoc (d : String)
  | synthCall
  | schemaCall
  | codeApiCall (attempt : Nat)
  | validateCall
  | fixCall
  | execExtractionCode
  | contentAnalysisCall
  | mdGenCall (retry : Bool)
  | execMarkdownCode
deriving DecidableEq, Repr

/-- The external world: AI collaborators, dynamically loaded generated
code, the spread input directory, and the fallible raw file write of
Step 5. -/
structure Env where
  analyze : String → Val
  visual : String → Val
  synthesize : List String → Option (List Val) → Option (List Val) → Except String Val
  genSchema : Option Val → Val
  codeApi : Nat → Except String Code
  codeFileWrite : Except String Unit
  validate : Option Code → Option Val → Except String ValidationResult
  fixCode : Option Code → ValidationResult → Except String Code
  codeLoadOk : Code → Bool
  runExtract : Code → String → Except String Val
  spreadDocs : List String
  analyzeContent : List Val → ContentAnalysis
  mdGen : ContentAnalysis → Val → Bool → Code
  compileOk : Code → Bool
  fixMdSyn : Code → Code
  mdLoadOk : Code → Bool

/-- The executor's effect monad: output-root state, event trace, and
Python exceptions.  The state and trace survive an exception so that what
a failing run durably wrote remains observable. -/
def PipeM (α : Type) : Type := FS → List Ev → FS × List Ev × Except String α

instance : Monad PipeM where
  pure a := fun fs evs => (fs, evs, Except.ok a)
  bind m f := fun fs evs =>
    match m fs evs with
    | (fs', evs', Except.ok a) => f a fs' evs'
    | (fs', evs', Except.error e) => (fs', evs', Except.error e)

/-- Read the current output root. -/
def getFS : PipeM FS := fun fs evs => (fs, evs, Except.ok fs)

/-- Apply a change to the output root. -/
def modFS (f : FS → FS) : PipeM Unit := fun fs evs => (f fs, evs, Except.ok ())

/-- Record one event. -/
def emit (e : Ev) : PipeM Unit := fun fs evs => (fs, evs ++ [e], Except.ok ())

/-- Record several events. -/
def emitAll (es : List Ev) : PipeM Unit := fun fs evs => (fs, evs ++ es, Except.ok ())

/-- Raise a Python exception. -/
def raiseEx {α : Type} (msg : String) : PipeM α := fun fs evs => (fs, evs, Except.error msg)

/-- Lift a fallible collaborator result. -/
def liftExc {α : Type} : Except String α → PipeM α
  | .ok a => fun fs evs => (fs, evs, Except.ok a)
  | .error e => raiseEx e

/-- `CodeGeneratorAgent.generate_extraction_code`
(code_generator.py lines 63-166): up to `max_retries = 3` API attempts;
an attempt that raises is retried after a backoff sleep, and when the last
attempt also raises the wrapper does **not** re-raise — it returns
`_generate_fallback_code(json_schema)`, the fallback template.  Returns
the produced text together with the API-call events. -/
def generate_extraction_code (env : Env) (schema : Option Val) : Code × List Ev :=
  match env.codeApi 0 with
  | .ok c => (c, [Ev.codeApiCall 0])
  | .error _ =>
    match env.codeApi 1 with
    | .ok c => (c, [Ev.codeApiCall 0, Ev.codeApiCall 1])
    | .error _ =>
      match env.codeApi 2 with
      | .ok c => (c, [Ev.codeApiCall 0, Ev.codeApiCall 1, Ev.codeApiCall 2])
      | .error _ =>
        (Code.fallbackTemplate schema, [Ev.codeApiCall 0, Ev.codeApiCall 1, Ev.codeApiCall 2])

/-- The local variables of `_process_html_files` that flow between steps
(main.py lines 692-697, 1091-1092) together with the flow ids each step
resolved to. -/
structure RunSt where
  analysisResults : Option (List Val) := none
  visualResults : Option (List Val) := none
  synthesized : Option Val := none
  jsonSchema : Option Val := none
  extractionCode : Option Code := none
  validationResult : Option ValidationResult := none
  step1Id : Int := 0
  step2Id : Option Int := none
  step3Id : Int := 0
  step4Id : Int := 0
  step5Id : Int := 0
  step6Id : Int := 0
  step7Id : Option Int := none
deriving DecidableEq, Repr

/-- `completed_steps` (main.py lines 701, 720-730): the flow id recorded
for each step key during the resume scan.  Only the five step identities
listed at lines 721-730 are mapped; note `"code"`, not `"code_generated"`
or `"code_validated"`, is what maps to `step5`. -/
structure CompletedSteps where
  step1 : Option Int := none
  step2 : Option Int := none
  step3 : Option Int := none
  step4 : Option Int := none
  step5 : Option Int := none
deriving DecidableEq, Repr

/-- The resume scan's first loop body (main.py lines 706-733): every
directory entry matching the flow pattern whose checkpoint loads, with its
parsed flow id, in directory-iteration order.  A name whose tail is not
an integer, or a missing/corrupt checkpoint, is skipped. -/
def scanFlows (fs : FS) : List (Int × Checkpoint) :=
  fs.entries.filterMap fun e =>
    match flowNum? e with
    | none => none
    | some n =>
      match load_checkpoint e.slot.checkpoint with
      | none => none
      | some c => some (n, c)

/-- One `completed_steps` assignment (main.py lines 721-730). -/
def stepKeyUpdate (cs : CompletedSteps) (n : Int) (step : String) : CompletedSteps :=
  if step = "text_analysis" then { cs with step1 := some n }
  else if step = "visual_analysis" then { cs with step2 := some n }
  else if step = "synthesized" then { cs with step3 := some n }
  else if step = "schema" then { cs with step4 := some n }
  else if step = "code" then { cs with step5 := some n }
  else cs

/-- `completed_steps` after the first loop: assignments in
directory-iteration order, a later matching slot overwriting an earlier
one. -/
def completedStepsOf (l : List (Int × Checkpoint)) : CompletedSteps :=
  l.foldl (fun cs p => stepKeyUpdate cs p.1 p.2.step) {}

/-- Stable insertion for the ascending sort by flow id
(`existing_flows.sort(key=lambda x: x['flow_id'])`, main.py line 736). -/
def insertAsc (p : Int × Checkpoint) : List (Int × Checkpoint) → List (Int × Checkpoint)
  | [] => [p]
  | q :: qs => if q.1 < p.1 then q :: insertAsc p qs else p :: q :: qs

/-- Python `list.sort` by flow id: stable, ascending. -/
def sortByFlowId (l : List (Int × Checkpoint)) : List (Int × Checkpoint) :=
  l.foldr insertAsc []

/-- One iteration of the data-loading loop (main.py lines 739-779): the
step identity selects which local variables the checkpoint's data
overwrites.  Each branch assigns `data.get(key)` directly — with no
default — so an absent key overwrites the variable with `None`. -/
def loadBagFrom (st : RunSt) (c : Checkpoint) : RunSt :=
  if c.step = "text_analysis" then
    { st with analysisResults := c.data.analysis_results }
  else if c.step = "visual_analysis" then
    { st with visualResults := c.data.visual_results,
              analysisResults := c.data.analysis_results }
  else if c.step = "synthesized" then
    { st with synthesized := c.data.synthesized,
              analysisResults := c.data.analysis_results,
              visualResults := c.data.visual_results }
  else if c.step = "schema" then
    { st with jsonSchema := c.data.schema,
              synthesized := c.data.synthesized,
              analysisResults := c.data.analysis_results,
              visualResults := c.data.visual_results }
  else if c.step = "code_generated" then
    { st with extractionCode := c.data.code,
              jsonSchema := c.data.schema,
              synthesized := c.data.synthesized,
              analysisResults := c.data.analysis_results,
              visualResults := c.data.visual_results }
  else if c.step = "code_validated" ∨ c.step = "code" then
    { st with extractionCode := c.data.code,
              jsonSchema := c.data.schema,
              synthesized := c.data.synthesized,
              analysisResults := c.data.analysis_results,
              visualResults := c.data.visual_results }
  else st

/-- The resume scan (main.py lines 699-783).  With `resume` disabled, or
an absent output root, nothing is loaded.  Otherwise the matching slots
are collected in directory-iteration order (which fixes `completed_steps`,
last match winning) and their data is loaded in ascending flow-id order,
a later slot's fields overwriting an earlier one's.  The `validation_result`
read at line 774 is discarded: line 1092 re-initializes the variable before
any use. -/
def resumeScan (fs : FS) (resume : Bool) : RunSt × CompletedSteps :=
  if resume ∧ fs.outputExists then
    let flows := scanFlows fs
    ((sortByFlowId flows).foldl (fun b p => loadBagFrom b p.2) {}, completedStepsOf flows)
  else ({}, {})

/-- Step 1, text analysis (main.py lines 785-824).  When the resume scan
already provided results, the step only resolves its slot
(`completed_steps.get('step1', 1)`).  Otherwise it allocates the next
slot, prefers a cached `step1_text_analysis_result.json` (refined by the
slot's checkpoint when that is at `text_analysis`), and only then runs
the analyzer over every document and persists result file plus
checkpoint. -/
def step1run (env : Env) (docs : List String) (cs : CompletedSteps) (st : RunSt) :
    PipeM RunSt := do
  match st.analysisResults with
  | some _ => do
    let fid := cs.step1.getD 1
    modFS (fun fs => fs.ensureFlowDir fid)
    pure { st with step1Id := fid }
  | none => do
    let fs ← getFS
    let fid := get_next_flow_id fs
    modFS (fun fs' => fs'.ensureFlowDir fid)
    let fs1 ← getFS
    let slot := fs1.flowSlot fid
    if slot.step1Result.isSome then
      let res :=
        match load_checkpoint slot.checkpoint with
        | some c =>
          if c.step = "text_analysis" then c.data.analysis_results <|> slot.step1Result
          else slot.step1Result
        | none => slot.step1Result
      pure { st with analysisResults := res, step1Id := fid }
    else do
      emitAll (docs.map Ev.analyzeDoc)
      let results := docs.map env.analyze
      modFS (fun fs' =>
        ((fs'.updFlow fid fun s => { s with step1Result := some results }).saveCkpt fid
          "text_analysis"
          { analysis_results := some results, file_identifiers := some docs }))
      pure { st with analysisResults := some results, step1Id := fid }

/-- Step 2, visual analysis (main.py lines 826-870).  Optional: with
`use_visual` disabled the step body is skipped entirely and
`visual_results` is set to the empty list (line 870).  The cached-file
branch (lines 842-849) also overwrites `analysis_results` from the slot's
checkpoint. -/
def step2run (env : Env) (docs : List String) (useVisual : Bool) (cs : CompletedSteps)
    (st : RunSt) : PipeM RunSt := do
  if useVisual then
    match st.visualResults with
    | some _ => do
      let fid := cs.step2.getD 2
      modFS (fun fs => fs.ensureFlowDir fid)
      pure { st with step2Id := some fid }
    | none => do
      let fs ← getFS
      let fid := get_next_flow_id fs
      modFS (fun fs' => fs'.ensureFlowDir fid)
      let fs1 ← getFS
      let slot := fs1.flowSlot fid
      if slot.step2Result.isSome then
        let (vis, ana) :=
          match load_checkpoint slot.checkpoint with
          | some c =>
            if c.step = "visual_analysis" then
              (c.data.visual_results <|> slot.step2Result,
               c.data.analysis_results <|> st.analysisResults)
            else (slot.step2Result, st.analysisResults)
          | none => (slot.step2Result, st.analysisResults)
        pure { st with visualResults := vis, analysisResults := ana, step2Id := some fid }
      else do
        emitAll (docs.map Ev.visualDoc)
        let results := docs.map env.visual
        modFS (fun fs' =>
          ((fs'.updFlow fid fun s => { s with step2Result := some results }).saveCkpt fid
            "visual_analysis"
            { analysis_results := st.analysisResults,
              visual_results := some results,
              file_identifiers := some docs }))
        pure { st with visualResults := some results, step2Id := some fid }
  else
    pure { st with visualResults := some [] }

/-- Step 3, synthesis (main.py lines 872-913).  The collaborator call
`Orchestrator.coordinate_analysis` sits outside any `try` in both the
agent and the executor, so a collaborator failure propagates with nothing
written.  The visual argument and the checkpointed `visual_results` are
`visual_results if use_visual else []` (lines 900, 909). -/
def step3run (env : Env) (docs : List String) (useVisual : Bool) (cs : CompletedSteps)
    (st : RunSt) : PipeM RunSt := do
  match st.synthesized with
  | some _ => do
    let fid := cs.step3.getD 3
    modFS (fun fs => fs.ensureFlowDir fid)
    pure { st with step3Id := fid }
  | none => do
    let fs ← getFS
    let fid := get_next_flow_id fs
    modFS (fun fs' => fs'.ensureFlowDir fid)
    let fs1 ← getFS
    let slot := fs1.flowSlot fid
    if slot.step3Result.isSome then
      let (syn, ana, vis) :=
        match load_checkpoint slot.checkpoint with
        | some c =>
          if c.step = "synthesized" then
            (c.data.synthesized <|> slot.step3Result,
             c.data.analysis_results <|> st.analysisResults,
             c.data.visual_results <|> st.visualResults)
          else (slot.step3Result, st.analysisResults, st.visualResults)
        | none => (slot.step3Result, st.analysisResults, st.visualResults)
      pure { st with synthesized := syn, analysisResults := ana, visualResults := vis,
                     step3Id := fid }
    else do
      emit Ev.synthCall
      let s ← liftExc (env.synthesize docs st.analysisResults
        (if useVisual then st.visualResults else some []))
      modFS (fun fs' =>
        ((fs'.updFlow fid fun sl => { sl with step3Result := some s }).saveCkpt fid
          "synthesized"
          { analysis_results := st.analysisResults,
            visual_results := if useVisual then st.visualResults else some [],
            synthesized := some s,
            file_identifiers := some docs }))
      pure { st with synthesized := some s, step3Id := fid }

/-- Step 4, schema generation (main.py lines 915-963).
`Orchestrator.generate_final_schema` catches every exception internally
and returns an error payload, so the collaborator call is total.  The
cached branch accepts either `step4_schema_result.json` or
`extraction_schema.json`. -/
def step4run (env : Env) (docs : List String) (useVisual : Bool) (cs : CompletedSteps)
    (st : RunSt) : PipeM RunSt := do
  match st.jsonSchema with
  | some _ => do
    let fid := cs.step4.getD 4
    modFS (fun fs => fs.ensureFlowDir fid)
    pure { st with step4Id := fid }
  | none => do
    let fs ← getFS
    let fid := get_next_flow_id fs
    modFS (fun fs' => fs'.ensureFlowDir fid)
    let fs1 ← getFS
    let slot := fs1.flowSlot fid
    if slot.step4Result.isSome ∨ slot.schemaFile.isSome then
      let fromFiles := slot.step4Result <|> slot.schemaFile
      let (sch, syn, ana, vis) :=
        match load_checkpoint slot.checkpoint with
        | some c =>
          if c.step = "schema" then
            (c.data.schema <|> fromFiles,
             c.data.synthesized <|> st.synthesized,
             c.data.analysis_results <|> st.analysisResults,
             c.data.visual_results <|> st.visualResults)
          else (fromFiles, st.synthesized, st.analysisResults, st.visualResults)
        | none => (fromFiles, st.synthesized, st.analysisResults, st.visualResults)
      pure { st with jsonSchema := sch, synthesized := syn, analysisResults := ana,
                     visualResults := vis, step4Id := fid }
    else do
      emit Ev.schemaCall
      let sc := env.genSchema st.synthesized
      modFS (fun fs' =>
        ((fs'.updFlow fid fun sl =>
            { sl with schemaFile := some sc, step4Result := some sc }).saveCkpt fid
          "schema"
          { analysis_results := st.analysisResults,
            visual_results := if useVisual then st.visualResults else some [],
            synthesized := st.synthesized,
            schema := some sc,
            file_identifiers := some docs }))
      pure { st with jsonSchema := some sc, step4Id := fid }

/-- The Step 5 pre-scan (main.py lines 979-999): the **first** directory
entry, in directory-iteration order, whose checkpoint is at `"schema"`
with the `code_generation_failed` flag; the loop breaks on it. -/
def findFailedStep5Aux : List Entry → Option Int
  | [] => none
  | e :: es =>
    match flowNum? e with
    | none => findFailedStep5Aux es
    | some n =>
      match load_checkpoint e.slot.checkpoint with
      | none => findFailedStep5Aux es
      | some c =>
        if c.step = "schema" ∧ c.data.code_generation_failed then some n
        else findFailedStep5Aux es

/-- The Step 5 pre-scan guarded by `Settings.OUTPUT_DIR.exists()`
(main.py line 982). -/
def findFailedStep5 (fs : FS) : Option Int :=
  if fs.outputExists then findFailedStep5Aux fs.entries else none

/-- Step 5, code generation (main.py lines 965-1087).  With code already
in hand the slot is `completed_steps.get('step5', 5)` and the code file
there, when present, replaces the in-memory text (lines 975-977).
Otherwise the step reuses a failure-marked slot when the pre-scan finds
one, trusts a `code_generated` checkpoint as completion unless the stored
code carries the fallback marker (lines 1031-1040), and else generates:
the wrapper never raises, but the raw write of `extraction_code.py` can;
on failure the handler deletes the partial file, pins the slot's
checkpoint at `"schema"` with `code_generation_failed` and the error
message, and re-raises (lines 1066-1087). -/
def step5run (env : Env) (docs : List String) (useVisual : Bool) (cs : CompletedSteps)
    (st : RunSt) : PipeM RunSt := do
  match st.extractionCode with
  | some _ => do
    let fid := cs.step5.getD 5
    modFS (fun fs => fs.ensureFlowDir fid)
    let fs1 ← getFS
    let slot := fs1.flowSlot fid
    let code' := slot.codeFile <|> st.extractionCode
    pure { st with step5Id := fid, extractionCode := code' }
  | none => do
    let fs ← getFS
    let fid :=
      match findFailedStep5 fs with
      | some n => n
      | none => get_next_flow_id fs
    modFS (fun fs' => fs'.ensureFlowDir fid)
    let fs1 ← getFS
    let slot := fs1.flowSlot fid
    let (completed0, st0) :=
      match load_checkpoint slot.checkpoint with
      | some c =>
        if c.step = "code_generated" then
          (true,
           { st with
              extractionCode := c.data.code,
              jsonSchema := c.data.schema <|> st.jsonSchema,
              synthesized := c.data.synthesized <|> st.synthesized,
              analysisResults := c.data.analysis_results <|> st.analysisResults,
              visualResults := c.data.visual_results <|> st.visualResults })
        else (false, st)
      | none => (false, st)
    let (completed1, st1) :=
      if slot.codeFile.isSome ∧ completed0 then
        let stA :=
          if st0.extractionCode.isNone then { st0 with extractionCode := slot.codeFile } else st0
        match stA.extractionCode with
        | some c =>
          if c.hasFallbackMarker then (false, { stA with extractionCode := none })
          else (true, stA)
        | none => (true, stA)
      else (completed0, st0)
    if completed1 then
      pure { st1 with step5Id := fid }
    else do
      let (gen, evs) := generate_extraction_code env st1.jsonSchema
      emitAll evs
      match env.codeFileWrite with
      | .ok _ => do
        modFS (fun fs' =>
          ((fs'.updFlow fid fun s => { s with codeFile := some gen }).saveCkpt fid
            "code_generated"
            { analysis_results := st1.analysisResults,
              visual_results := if useVisual then st1.visualResults else some [],
              synthesized := st1.synthesized,
              schema := st1.jsonSchema,
              code := some gen,
              file_identifiers := some docs }))
        pure { st1 with step5Id := fid, extractionCode := some gen }
      | .error e => do
        modFS (fun fs' =>
          ((fs'.updFlow fid fun s => { s with codeFile := none }).saveCkpt fid
            "schema"
            { analysis_results := st1.analysisResults,
              visual_results := if useVisual then st1.visualResults else some [],
              synthesized := st1.synthesized,
              schema := st1.jsonSchema,
              file_identifiers := some docs,
              errMsg := some ("Code generation failed: " ++ e),
              code_generation_failed := true }))
        raiseEx e

/-- The Step 6 pre-scan (main.py lines 1098-1116): the first directory
entry, in directory-iteration order, whose checkpoint is at
`"code_validated"` or `"code"`; the loop breaks on it. -/
def findValidatedAux : List Entry → Option (Int × Checkpoint)
  | [] => none
  | e :: es =>
    match flowNum? e with
    | none => findValidatedAux es
    | some n =>
      match load_checkpoint e.slot.checkpoint with
      | none => findValidatedAux es
      | some c =>
        if c.step = "code_validated" ∨ c.step = "code" then some (n, c)
        else findValidatedAux es

/-- The Step 6 pre-scan guarded by `Settings.OUTPUT_DIR.exists()`. -/
def findValidated (fs : FS) : Option (Int × Checkpoint) :=
  if fs.outputExists then findValidatedAux fs.entries else none

/-- `_execute_extraction_code` (main.py lines 119-377), effect part.
Nothing happens when the spread directory yields no documents or the
slot's `extraction_code.py` is missing (the import error is caught at
line 373).  Otherwise `exec_module` runs the generated code — the
`execExtractionCode` event — and, when the module passes the interface
checks, every document whose `extract` call succeeds gets a JSON file in
the slot's `extraction_results/` directory.  The summary file and the
returned counters are write-only and not modelled. -/
def execExtractionCodeInto (env : Env) (fid : Int) : PipeM Unit := do
  if env.spreadDocs.isEmpty then pure ()
  else do
    let fs ← getFS
    let slot := fs.flowSlot fid
    match slot.codeFile with
    | none => pure ()
    | some code => do
      emit Ev.execExtractionCode
      if env.codeLoadOk code then
        let results := env.spreadDocs.filterMap fun d => (env.runExtract code d).toOption
        modFS (fun fs' => fs'.updFlow fid fun s => { s with extractionResults := some results })
      else pure ()

/-- The Step 6 failure handler (main.py lines 1271-1286): pin the slot's
checkpoint at the previous identity `"code_generated"` with the
`validation_failed` flag, the error message, and the current value of
`extraction_code`; the caller then re-raises. -/
def step6FailCkpt (docs : List String) (useVisual : Bool) (st : RunSt) (fid : Int)
    (codeNow : Option Code) (e : String) : PipeM Unit :=
  modFS (fun fs => fs.saveCkpt fid
    "code_generated"
    { analysis_results := st.analysisResults,
      visual_results := if useVisual then st.visualResults else some [],
      synthesized := st.synthesized,
      schema := st.jsonSchema,
      code := codeNow,
      file_identifiers := some docs,
      errMsg := some ("Code validation failed: " ++ e),
      validation_failed := true })

/-- The fresh-slot body of Step 6 (main.py lines 1142-1286). -/
def step6fresh (env : Env) (docs : List String) (useVisual : Bool) (st : RunSt) :
    PipeM RunSt := do
  let fs ← getFS
  let fid := get_next_flow_id fs
  modFS (fun fs' => fs'.ensureFlowDir fid)
  emit Ev.validateCall
  match env.validate st.extractionCode st.jsonSchema with
  | .error e => do
    step6FailCkpt docs useVisual st fid st.extractionCode e
    raiseEx e
  | .ok vr => do
    let hasIssues := ¬(vr.synErrors = [] ∧ vr.robustnessIssues = [] ∧ vr.interfaceIssues = [])
    let afterFix ←
      if hasIssues ∧ vr.fixedCode.isSome then do
        emit Ev.fixCall
        match env.fixCode st.extractionCode vr with
        | .error e => do
          step6FailCkpt docs useVisual st fid st.extractionCode e
          raiseEx e
        | .ok fc => do
          emit Ev.validateCall
          match env.validate (some fc) st.jsonSchema with
          | .error e => do
            step6FailCkpt docs useVisual st fid (some fc) e
            raiseEx e
          | .ok vr2 =>
            if vr2.synErrors = [] ∧ vr2.robustnessIssues = [] ∧ vr2.interfaceIssues = [] then
              pure (some fc, vr)
            else
              pure (some fc, vr2)
      else
        pure (st.extractionCode, vr)
  -- marker when the final validation result carries no fixed_code (lines 1208-1229)
    let codeFinal :=
      if afterFix.2.fixedCode.isSome then afterFix.1
      else afterFix.1.map Code.markedValidated
    modFS (fun fs' =>
      ((fs'.updFlow fid fun s =>
          { s with validationFile := some afterFix.2, codeFile := codeFinal }).saveCkpt fid
        "code_validated"
        { analysis_results := st.analysisResults,
          visual_results := if useVisual then st.visualResults else some [],
          synthesized := st.synthesized,
          schema := st.jsonSchema,
          code := codeFinal,
          validation := some afterFix.2,
          file_identifiers := some docs }))
    execExtractionCodeInto env fid
    pure { st with step6Id := fid, extractionCode := codeFinal,
                   validationResult := some afterFix.2 }

/-- Step 6, validation (main.py lines 1089-1286).  When a slot with a
`code_validated`/`code` checkpoint holding both code and validation is
found, validation is skipped but Step 6.5 still executes the stored code
on the spread directory (lines 1118-1141), its errors only logged.
Otherwise a fresh slot is allocated and the code is validated, optionally
AI-fixed and re-validated, marker-commented when no fix was produced,
persisted with a `code_validated` checkpoint, and executed (Step 6.5).  A
collaborator exception inside the `try` pins the checkpoint at
`"code_generated"` with `validation_failed` and re-raises. -/
def step6run (env : Env) (docs : List String) (useVisual : Bool) (st : RunSt) :
    PipeM RunSt := do
  let fs ← getFS
  let found := findValidated fs
  match found with
  | some (fid, c) =>
    match c.data.code, c.data.validation with
    | some vc, some vr => do
      modFS (fun fs' => fs'.ensureFlowDir fid)
      let st' := { st with step6Id := fid, extractionCode := some vc,
                           validationResult := some vr }
      execExtractionCodeInto env fid
      pure st'
    | _, _ => step6fresh env docs useVisual st
  | none => step6fresh env docs useVisual st

/-- The Step 7 pre-scan (main.py lines 1388-1405): the first directory
entry, in directory-iteration order, whose checkpoint is at
`"markdown_converted"`; the loop breaks on it. -/
def findMarkdownAux : List Entry → Option (Int × Checkpoint)
  | [] => none
  | e :: es =>
    match flowNum? e with
    | none => findMarkdownAux es
    | some n =>
      match load_checkpoint e.slot.checkpoint with
      | none => findMarkdownAux es
      | some c =>
        if c.step = "markdown_converted" then some (n, c)
        else findMarkdownAux es

/-- The Step 7 pre-scan guarded by `Settings.OUTPUT_DIR.exists()`. -/
def findMarkdown (fs : FS) : Option (Int × Checkpoint) :=
  if fs.outputExists then findMarkdownAux fs.entries else none

/-- `_execute_markdown_conversion` (main.py lines 534-683), effect part.
Nothing happens when the converter file, the extraction-results directory
or its JSON files are missing; otherwise `exec_module` runs the generated
converter — the `execMarkdownCode` event.  The per-file markdown outputs
and the summary are write-only and not modelled. -/
def execMarkdownInto (env : Env) (fid : Int) (step6Id : Int) : PipeM Unit := do
  let fs ← getFS
  match (fs.flowSlot fid).mdCodeFile with
  | none => pure ()
  | some mc =>
    match (fs.flowSlot step6Id).extractionResults with
    | none => pure ()
    | some [] => pure ()
    | some (_ :: _) => do
      emit Ev.execMarkdownCode
      if env.mdLoadOk mc then pure () else pure ()

/-- The Step 7 failure handler (main.py lines 1545-1554): write a
checkpoint at the previous identity `"code_validated"` whose data holds
only the error message and the `markdown_conversion_failed` flag, and do
**not** re-raise — markdown conversion is optional. -/
def step7FailCkpt (fid : Int) (e : String) : PipeM Unit :=
  modFS (fun fs => fs.saveCkpt fid
    "code_validated"
    { errMsg := some ("Markdown conversion failed: " ++ e),
      markdown_conversion_failed := true })

/-- Persisting Step 7's outputs (main.py lines 1512-1543). -/
def step7save (env : Env) (docs : List String) (st : RunSt) (fid : Int)
    (ca : ContentAnalysis) (mc : Code) (cnt : Nat) : PipeM RunSt := do
  modFS (fun fs =>
    ((fs.updFlow fid fun s => { s with mdCodeFile := some mc }).saveCkpt fid
      "markdown_converted"
      { content_analysis := some ca,
        markdown_converter_code := some mc,
        json_files_count := some cnt,
        file_identifiers := some docs }))
  execMarkdownInto env fid st.step6Id
  pure { st with step7Id := some fid }

/-- The happy body of Step 7 once JSON results exist
(main.py lines 1460-1543): analyze the sampled results, raise into the
step's handler when the analysis carries an error key, generate converter
code, syntax-check it with one fix attempt and one regeneration attempt
(lines 1483-1510), persist code and the `markdown_converted` checkpoint —
whose data carries **only** the content analysis, the converter code, the
file count and the identifiers — then execute the conversion (7.5). -/
def step7body (env : Env) (docs : List String) (st : RunSt) (fid : Int)
    (j : Val) (js : List Val) : PipeM RunSt := do
  let sample := (j :: js).take 5
  emit Ev.contentAnalysisCall
  let ca := env.analyzeContent sample
  if ca.hasError then do
    step7FailCkpt fid "Content analysis failed"
    pure { st with step7Id := some fid }
  else do
    emit (Ev.mdGenCall false)
    let mc0 := env.mdGen ca j false
    if env.compileOk mc0 then step7save env docs st fid ca mc0 (j :: js).length
    else do
      let mc1 := env.fixMdSyn mc0
      if env.compileOk mc1 then step7save env docs st fid ca mc1 (j :: js).length
      else do
        emit (Ev.mdGenCall true)
        let mc2 := env.mdGen ca j true
        if env.compileOk mc2 then step7save env docs st fid ca mc2 (j :: js).length
        else do
          step7FailCkpt fid "Generated code has unfixable syntax errors"
          pure { st with step7Id := some fid }

/-- The fresh-slot body of Step 7 (main.py lines 1429-1554). -/
def step7fresh (env : Env) (docs : List String) (st : RunSt) : PipeM RunSt := do
  let fs ← getFS
  let fid := get_next_flow_id fs
  modFS (fun fs' => fs'.ensureFlowDir fid)
  let fs1 ← getFS
  match (fs1.flowSlot st.step6Id).extractionResults with
  | none => pure { st with step7Id := some fid }
  | some [] => pure { st with step7Id := some fid }
  | some (j :: js) => step7body env docs st fid j js

/-- Step 7, markdown conversion (main.py lines 1379-1566).  When a
`markdown_converted` checkpoint holding both converter code and content
analysis is found, generation is skipped but Step 7.5 still executes the
stored converter over flow `step6Id`'s extraction results
(lines 1407-1428), errors only logged.  Otherwise a fresh slot is
allocated; when flow `step6Id` has no extraction results the step is
skipped with nothing written (lines 1439-1447). -/
def step7run (env : Env) (docs : List String) (st : RunSt) : PipeM RunSt := do
  let fs ← getFS
  match findMarkdown fs with
  | some (fid, c) =>
    match c.data.markdown_converter_code, c.data.content_analysis with
    | some _, some _ => do
      modFS (fun fs' => fs'.ensureFlowDir fid)
      execMarkdownInto env fid st.step6Id
      pure { st with step7Id := some fid }
    | _, _ => step7fresh env docs st
  | none => step7fresh env docs st

/-- `HTMLAgentSystem._process_html_files` (main.py lines 685-1595): the
resume scan followed by the seven steps in order.  The
`intermediate_results.json` snapshots written between Step 6 and Step 7
(lines 1288-1377) and the returned path dictionary (lines 1571-1595) are
write-only observability artifacts and are not modelled. -/
def process_html_files (env : Env) (docs : List String) (useVisual resume : Bool) :
    PipeM RunSt := do
  let fs ← getFS
  let (st0, cs) := resumeScan fs resume
  let st1 ← step1run env docs cs st0
  let st2 ← step2run env docs useVisual cs st1
  let st3 ← step3run env docs useVisual cs st2
  let st4 ← step4run env docs useVisual cs st3
  let st5 ← step5run env docs useVisual cs st4
  let st6 ← step6run env docs useVisual st5
  step7run env docs st6

/-- Run the pipeline on an output root, yielding the final root, the event
trace and the outcome. -/
def runPipeline (env : Env) (docs : List String) (useVisual resume : Bool) (fs : FS) :
    FS × List Ev × Except String RunSt :=
  process_html_files env docs useVisual resume fs []

/-! ### Step-result files: `save_step_result` / `load_step_result`
(src/utils/checkpoint.py lines 62-105)

`save_step_result` writes a dict or list with `json.dump`, a plain string
as raw text, and anything else as `json.dump({"result": str(result)})`.
`load_step_result` re-parses the file with `json.load` whenever the
filename ends in `.json` — which the default filename
`f"{step_name}_result.json"` always does.  To settle the round-trip claim
we embed the values as `PyVal` and give a concrete serializer/parser pair
for the JSON fragment the store can produce.

Modelling notes for the codec: `json.dump(..., indent=2)` emits
whitespace, which `json.load` skips, so the serializer emits the compact
form and the parser skips whitespace; floats are excluded from `PyVal`
(floating-point round-tripping is out of scope); the serializer escapes
the quote, the backslash and the common control characters, and the
parser understands exactly those escapes (`\uXXXX` escapes and the
strict-mode rejection of raw control characters are not modelled — the
store never produces either). -/

/-- A JSON-serializable Python value as the step-result store handles it. -/
inductive PyVal where
  | null
  | bool (b : Bool)
  | int (i : Int)
  | str (s : String)
  | list (xs : List PyVal)
  | dict (kvs : List (String × PyVal))
deriving Repr

/-- JSON string escaping of one character
(`json.dump` with `ensure_ascii=False`). -/
def escChar (c : Char) : List Char :=
  if c = '"' then ['\\', '"']
  else if c = '\\' then ['\\', '\\']
  else if c = '\n' then ['\\', 'n']
  else if c = '\t' then ['\\', 't']
  else if c = '\r' then ['\\', 'r']
  else [c]

/-- Escape every character of a string body. -/
def escStr : List Char → List Char
  | [] => []
  | c :: cs => escChar c ++ escStr cs

/-- Serialized JSON string literal. -/
def dumpStrChars (cs : List Char) : List Char :=
  '"' :: (escStr cs ++ ['"'])

mutual

/-- `json.dump` of a value, compact form. -/
def dumpVal : PyVal → List Char
  | .null => 'n' :: 'u' :: 'l' :: 'l' :: []
  | .bool true => 't' :: 'r' :: 'u' :: 'e' :: []
  | .bool false => 'f' :: 'a' :: 'l' :: 's' :: 'e' :: []
  | .int i => (intToStr i).data
  | .str s => dumpStrChars s.data
  | .list xs => '[' :: (dumpElems xs ++ [']'])
  | .dict kvs => '{' :: (dumpMembers kvs ++ ['\x7d'])

/-- Comma-separated serialized elements. -/
def dumpElems : List PyVal → List Char
  | [] => []
  | [x] => dumpVal x
  | x :: y :: xs => dumpVal x ++ ',' :: dumpElems (y :: xs)

/-- Comma-separated serialized members. -/
def dumpMembers : List (String × PyVal) → List Char
  | [] => []
  | [(k, v)] => dumpStrChars k.data ++ ':' :: dumpVal v
  | (k, v) :: p :: ps => dumpStrChars k.data ++ ':' :: dumpVal v ++ ',' :: dumpMembers (p :: ps)

end

/-- The serialized members after the first one: empty, or a comma and the
rest (a reading aid for the dictionary round-trip proof). -/
def dumpMembersTail : List (String × PyVal) → List Char
  | [] => []
  | m :: ms => ',' :: dumpMembers (m :: ms)

/-- JSON whitespace. -/
def isJsonWs (c : Char) : Bool :=
  c = ' ' ∨ c = '\t' ∨ c = '\n' ∨ c = '\r'

/-- Skip JSON whitespace. -/
def skipWs (cs : List Char) : List Char := cs.dropWhile isJsonWs

/-- Unescape one string-escape character; `none` refuses the escape. -/
def unescChar (c : Char) : Option Char :=
  if c = '"' then some '"'
  else if c = '\\' then some '\\'
  else if c = '/' then some '/'
  else if c = 'n' then some '\n'
  else if c = 't' then some '\t'
  else if c = 'r' then some '\r'
  else none

/-- Parse the body of a JSON string literal, after the opening quote:
the content and the input after the closing quote. -/
def parseStrBody : List Char → Option (List Char × List Char)
  | [] => none
  | [c] => if c = '"' then some ([], []) else none
  | c :: e :: rest =>
    if c = '"' then some ([], e :: rest)
    else if c = '\\' then
      match unescChar e with
      | none => none
      | some u =>
        match parseStrBody rest with
        | none => none
        | some (s, r) => some (u :: s, r)
    else
      match parseStrBody (e :: rest) with
      | none => none
      | some (s, r) => some (c :: s, r)

/-- Parse a JSON number's digit run (integers only): non-empty, no
redundant leading zero. -/
def parseNumDigits (cs : List Char) : Option (Nat × List Char) :=
  let ds := cs.takeWhile isDecDigit
  let rest := cs.dropWhile isDecDigit
  if ds.isEmpty then none
  else if ds.head? = some '0' ∧ ds.length ≠ 1 then none
  else some (readDigits 0 ds, rest)

mutual

/-- Parse one JSON value.  `fuel` bounds the recursion depth so the
parser is structural; `parseJsonChars` supplies enough fuel for any
input. -/
def parseVal : Nat → List Char → Option (PyVal × List Char)
  | 0, _ => none
  | fuel + 1, cs =>
    match skipWs cs with
    | [] => none
    | c :: rest =>
      if c = 'n' then
        match rest with
        | 'u' :: 'l' :: 'l' :: r => some (.null, r)
        | _ => none
      else if c = 't' then
        match rest with
        | 'r' :: 'u' :: 'e' :: r => some (.bool true, r)
        | _ => none
      else if c = 'f' then
        match rest with
        | 'a' :: 'l' :: 's' :: 'e' :: r => some (.bool false, r)
        | _ => none
      else if c = '"' then
        match parseStrBody rest with
        | none => none
        | some (s, r) => some (.str (String.mk s), r)
      else if c = '[' then
        if (skipWs rest).head? = some ']' then some (.list [], (skipWs rest).tail)
        else
          match parseElems fuel rest with
          | none => none
          | some (xs, r) => some (.list xs, r)
      else if c = '{' then
        if (skipWs rest).head? = some '\x7d' then some (.dict [], (skipWs rest).tail)
        else
          match parseMembers fuel rest with
          | none => none
          | some (ms, r) => some (.dict ms, r)
      else if c = '-' then
        match parseNumDigits rest with
        | none => none
        | some (n, r) => some (.int (-(n : Int)), r)
      else if isDecDigit c then
        match parseNumDigits (c :: rest) with
        | none => none
        | some (n, r) => some (.int (n : Int), r)
      else none

/-- Parse one or more comma-separated elements and the closing `]`. -/
def parseElems : Nat → List Char → Option (List PyVal × List Char)
  | 0, _ => none
  | fuel + 1, cs =>
    match parseVal fuel cs with
    | none => none
    | some (v, r1) =>
      match skipWs r1 with
      | ',' :: r2 =>
        (match parseElems fuel r2 with
         | none => none
         | some (vs, r3) => some (v :: vs, r3))
      | ']' :: r2 => some ([v], r2)
      | _ => none

/-- Parse one or more comma-separated members and the closing brace. -/
def parseMembers : Nat → List Char → Option (List (String × PyVal) × List Char)
  | 0, _ => none
  | fuel + 1, cs =>
    match skipWs cs with
    | '"' :: r0 =>
      (match parseStrBody r0 with
       | none => none
       | some (k, r1) =>
         match skipWs r1 with
         | ':' :: r2 =>
           (match parseVal fuel r2 with
            | none => none
            | some (v, r3) =>
              match skipWs r3 with
              | ',' :: r4 =>
                (match parseMembers fuel r4 with
                 | none => none
                 | some (ms, r5) => some ((String.mk k, v) :: ms, r5))
              | '\x7d' :: r4 => some ([(String.mk k, v)], r4)
              | _ => none)
         | _ => none)
    | _ => none

end

/-- `json.load` of a whole file: one value, then only whitespace. -/
def parseJsonChars (cs : List Char) : Option PyVal :=
  match parseVal (2 * cs.length + 2) cs with
  | some (v, rest) => if (skipWs rest).isEmpty then some v else none
  | none => none

/-- The input after a serialized number must not continue with a digit
(inside serialized containers it continues with a separator or a closing
bracket; at top level it is empty). -/
def headNotDigit (l : List Char) : Prop :=
  ∀ c, l.head? = some c → isDecDigit c = false

mutual

/-- Fuel sufficient for `parseVal` on the serialization of a value. -/
def fuelFor : PyVal → Nat
  | .null => 1
  | .bool _ => 1
  | .int _ => 1
  | .str _ => 1
  | .list [] => 1
  | .list (x :: xs) => 1 + fuelForElems (x :: xs)
  | .dict [] => 1
  | .dict (m :: ms) => 1 + fuelForMembers (m :: ms)

/-- Fuel sufficient for `parseElems` on serialized elements. -/
def fuelForElems : List PyVal → Nat
  | [] => 0
  | x :: xs => 1 + max (fuelFor x) (fuelForElems xs)

/-- Fuel sufficient for `parseMembers` on serialized members. -/
def fuelForMembers : List (String × PyVal) → Nat
  | [] => 0
  | (_, v) :: ms => 1 + max (fuelFor v) (fuelForMembers ms)

end

/-- Python `str()` of the scalar values the store's fallback branch can
receive (checkpoint.py line 78 is only reached for a value that is
neither dict, list nor str).  Containers and strings are listed for
totality only; no claim depends on them. -/
def pyStrScalar : PyVal → String
  | .null => "None"
  | .bool true => "True"
  | .bool false => "False"
  | .int i => intToStr i
  | .str s => s
  | .list _ => ""
  | .dict _ => ""

/-- `CheckpointManager.save_step_result` (checkpoint.py lines 62-84): the
bytes written to the default file `f"{step_name}_result.json"`.  A dict
or list is `json.dump`ed, a string is written raw, anything else becomes
`json.dump({"result": str(result)})`. -/
def save_step_result : PyVal → List Char
  | .dict kvs => dumpVal (.dict kvs)
  | .list xs => dumpVal (.list xs)
  | .str s => s.data
  | v => dumpVal (.dict [("result", .str (pyStrScalar v))])

/-- `CheckpointManager.load_step_result` (checkpoint.py lines 86-105) with
the default filename: `none` when the file does not exist; since the
default filename ends in `.json`, the content is re-parsed with
`json.load`, and a parse failure is caught and becomes `none`. -/
def load_step_result (file : Option (List Char)) : Option PyVal :=
  match file with
  | none => none
  | some cs => parseJsonChars cs

/-! ### Sample environments for concrete runs -/

/-- A collaborator world in which every call succeeds: the fallible calls
are total functions, the generated code compiles, loads and passes its
interface checks, and validation reports no issues and offers no fix.
`Env.ofTotal` injects it into `Env`; the completed-run theorems quantify
over it. -/
structure TotalEnv where
  analyze : String → Val
  visual : String → Val
  synthesize : List String → Option (List Val) → Option (List Val) → Val
  genSchema : Option Val → Val
  apiCode : Val
  valWarnings : List Val
  extractRes : Code → String → Val
  spreadDocs : List String
  contentRes : List Val → Val
  mdCode : ContentAnalysis → Val → Bool → Val

/-- The `Env` of an all-success collaborator world. -/
def Env.ofTotal (te : TotalEnv) : Env where
  analyze := te.analyze
  visual := te.visual
  synthesize := fun a b c => .ok (te.synthesize a b c)
  genSchema := te.genSchema
  codeApi := fun _ => .ok (Code.api te.apiCode)
  codeFileWrite := .ok ()
  validate := fun _ _ => .ok { synErrors := [], robustnessIssues := [], interfaceIssues := [],
                               warnings := te.valWarnings, fixedCode := none }
  fixCode := fun c _ => .ok (c.getD (Code.api 0))
  codeLoadOk := fun _ => true
  runExtract := fun c d => .ok (te.extractRes c d)
  spreadDocs := te.spreadDocs
  analyzeContent := fun l => { hasError := false, val := te.contentRes l }
  mdGen := fun ca j r => Code.api (te.mdCode ca j r)
  compileOk := fun _ => true
  fixMdSyn := id
  mdLoadOk := fun _ => true

/-- A fully constant all-success world with one spread document. -/
def okTotal : TotalEnv where
  analyze := fun _ => 0
  visual := fun _ => 0
  synthesize := fun _ _ _ => 0
  genSchema := fun _ => 0
  apiCode := 0
  valWarnings := []
  extractRes := fun _ _ => 0
  spreadDocs := ["spreadDoc"]
  contentRes := fun _ => 0
  mdCode := fun _ _ _ => 0

/-- Its `Env`. -/
def okEnv : Env := Env.ofTotal okTotal

/-! ### Scan matchers and fixtures used by the theorems -/

/-- The entries the Step 6 pre-scan's predicate accepts, with their parsed
ids, in directory-iteration order. -/
def validatedMatches (l : List Entry) : List (Int × Checkpoint) :=
  l.filterMap fun e =>
    match flowNum? e with
    | none => none
    | some n =>
      match load_checkpoint e.slot.checkpoint with
      | none => none
      | some c =>
        if c.step = "code_validated" ∨ c.step = "code" then some (n, c) else none

/-- The entries the Step 5 pre-scan's predicate accepts. -/
def failedStep5Matches (l : List Entry) : List Int :=
  l.filterMap fun e =>
    match flowNum? e with
    | none => none
    | some n =>
      match load_checkpoint e.slot.checkpoint with
      | none => none
      | some c =>
        if c.step = "schema" ∧ c.data.code_generation_failed then some n else none

/-- The entries the Step 7 pre-scan's predicate accepts. -/
def markdownMatches (l : List Entry) : List (Int × Checkpoint) :=
  l.filterMap fun e =>
    match flowNum? e with
    | none => none
    | some n =>
      match load_checkpoint e.slot.checkpoint with
      | none => none
      | some c =>
        if c.step = "markdown_converted" then some (n, c) else none

/-- A terminal Step 6 checkpoint with trivial contents, for fixtures. -/
def validatedCkpt : Checkpoint where
  step := "code_validated"
  timestamp := 0
  data := { code := some (Code.api 0),
            validation := some { synErrors := [], robustnessIssues := [],
                                 interfaceIssues := [], warnings := [], fixedCode := none } }

/-- An output root whose iteration order lists a matching `flow2` before a
matching `flow1`: `iterdir` order is the OS's, not numeric. -/
def fsTwoValidated : FS where
  outputExists := true
  clock := 0
  entries :=
    [ { name := flowName 2, isDir := true,
        slot := { checkpoint := CkptFileState.complete validatedCkpt } },
      { name := flowName 1, isDir := true,
        slot := { checkpoint := CkptFileState.complete validatedCkpt } } ]

/-- A flow-slot directory entry. -/
def flowEntry (i : Int) (s : Slot) : Entry where
  name := flowName i
  isDir := true
  slot := s

/-- An output root with slots 2 and 5 plus a malformed directory name, for
the allocator witness. -/
def fsAllocEx : FS where
  outputExists := true
  clock := 0
  entries :=
    [ flowEntry 2 Slot.empty,
      { name := "flowx", isDir := true, slot := Slot.empty },
      flowEntry 5 Slot.empty ]

/-! ### Concrete runs and their literal outcomes

The remaining claims quantify over whole executions.  They are settled on
the all-success collaborator world `okEnv` and on worlds differing from it
in exactly one failing collaborator; the literal outcome of each run is
spelled out below and the theorems assert, by reduction, that the
execution produces it. -/

/-- An issue-free validation verdict with no fix offered. -/
def okVR : ValidationResult :=
  { synErrors := [], robustnessIssues := [], interfaceIssues := [],
    warnings := [], fixedCode := none }

/-- Step 1 checkpoint of the completed `okEnv` run. -/
def run1Ck1 : Checkpoint where
  step := "text_analysis"
  timestamp := 0
  data := { analysis_results := some [0], file_identifiers := some ["doc"] }

/-- Step 2 checkpoint of the completed `okEnv` run. -/
def run1Ck2 : Checkpoint where
  step := "visual_analysis"
  timestamp := 1
  data := { analysis_results := some [0], visual_results := some [0],
            file_identifiers := some ["doc"] }

/-- Step 3 checkpoint of the completed `okEnv` run. -/
def run1Ck3 : Checkpoint where
  step := "synthesized"
  timestamp := 2
  data := { analysis_results := some [0], visual_results := some [0],
            synthesized := some 0, file_identifiers := some ["doc"] }

/-- Step 4 checkpoint of the completed `okEnv` run. -/
def run1Ck4 : Checkpoint where
  step := "schema"
  timestamp := 3
  data := { analysis_results := some [0], visual_results := some [0],
            synthesized := some 0, schema := some 0, file_identifiers := some ["doc"] }

/-- Step 5 checkpoint of the completed `okEnv` run. -/
def run1Ck5 : Checkpoint where
  step := "code_generated"
  timestamp := 4
  data := { analysis_results := some [0], visual_results := some [0],
            synthesized := some 0, schema := some 0, code := some (Code.api 0),
            file_identifiers := some ["doc"] }

/-- Step 6 checkpoint of the completed `okEnv` run. -/
def run1Ck6 : Checkpoint where
  step := "code_validated"
  timestamp := 5
  data := { analysis_results := some [0], visual_results := some [0],
            synthesized := some 0, schema := some 0,
            code := some (Code.markedValidated (Code.api 0)),
            validation := some okVR, file_identifiers := some ["doc"] }

/-- Step 7 checkpoint of the completed `okEnv` run: its data holds only
the content analysis, the converter code, the file count and the
identifiers. -/
def run1Ck7 : Checkpoint where
  step := "markdown_converted"
  timestamp := 6
  data := { file_identifiers := some ["doc"],
            content_analysis := some { hasError := false, val := 0 },
            markdown_converter_code := some (Code.api 0), json_files_count := some 1 }

/-- Flow-1 slot after Step 1 (unchanged by every later step). -/
def slotF1 : Slot := { checkpoint := .complete run1Ck1, step1Result := some [0] }

/-- Flow-2 slot after Step 2 of a visual run. -/
def slotF2 : Slot := { checkpoint := .complete run1Ck2, step2Result := some [0] }

/-- Flow-3 slot after Step 3 of a visual run. -/
def slotF3 : Slot := { checkpoint := .complete run1Ck3, step3Result := some 0 }

/-- Flow-4 slot after Step 4 of a visual run. -/
def slotF4 : Slot :=
  { checkpoint := .complete run1Ck4, step4Result := some 0, schemaFile := some 0 }

/-- Flow-5 slot after Step 5 of a visual `okEnv` run. -/
def slotF5 : Slot := { checkpoint := .complete run1Ck5, codeFile := some (Code.api 0) }

/-- The output root after the completed `okEnv` run. -/
def run1Root : FS where
  outputExists := true
  clock := 7
  entries :=
    [ flowEntry 1 slotF1, flowEntry 2 slotF2, flowEntry 3 slotF3, flowEntry 4 slotF4,
      flowEntry 5 slotF5,
      flowEntry 6 { checkpoint := .complete run1Ck6,
                    codeFile := some (Code.markedValidated (Code.api 0)),
                    extractionResults := some [0], validationFile := some okVR },
      flowEntry 7 { checkpoint := .complete run1Ck7, mdCodeFile := some (Code.api 0) } ]

/-- The event trace of the completed `okEnv` run. -/
def run1Events : List Ev :=
  [ .analyzeDoc "doc", .visualDoc "doc", .synthCall, .schemaCall, .codeApiCall 0,
    .validateCall, .execExtractionCode, .contentAnalysisCall, .mdGenCall false,
    .execMarkdownCode ]

/-- The final locals of the completed `okEnv` run. -/
def run1State : RunSt :=
  { analysisResults := some [0], visualResults := some [0], synthesized := some 0,
    jsonSchema := some 0, extractionCode := some (Code.markedValidated (Code.api 0)),
    validationResult := some okVR,
    step1Id := 1, step2Id := some 2, step3Id := 3, step4Id := 4, step5Id := 5,
    step6Id := 6, step7Id := some 7 }

/-- `okEnv` with a permanently failing `coordinate_analysis` collaborator
(Step 3, mandatory). -/
def envSynthFail : Env :=
  { okEnv with synthesize := fun _ _ _ => .error "orchestrator down" }

/-- `okEnv` with a failing raw write of `extraction_code.py` (Step 5). -/
def envWriteFail : Env := { okEnv with codeFileWrite := .error "disk full" }

/-- `okEnv` with a permanently failing `validate_code` collaborator
(Step 6, mandatory). -/
def envValFail : Env := { okEnv with validate := fun _ _ => .error "validator down" }

/-- `okEnv` with a code-generation API that fails on every one of the
three attempts. -/
def envApiFail : Env := { okEnv with codeApi := fun _ => .error "502" }

/-- The output root the `envSynthFail` run leaves behind: Steps 1 and 2
completed, and the Step 3 slot `flow3` created but with **no** checkpoint
file at all. -/
def synthFailRoot : FS where
  outputExists := true
  clock := 2
  entries := [ flowEntry 1 slotF1, flowEntry 2 slotF2, flowEntry 3 Slot.empty ]

/-- The Step 5 failure checkpoint: pinned at `"schema"` with the
`code_generation_failed` flag and the error message. -/
def writeFailCk5 : Checkpoint where
  step := "schema"
  timestamp := 4
  data := { analysis_results := some [0], visual_results := some [0],
            synthesized := some 0, schema := some 0, file_identifiers := some ["doc"],
            errMsg := some "Code generation failed: disk full",
            code_generation_failed := true }

/-- The output root the `envWriteFail` run leaves behind. -/
def writeFailRoot : FS where
  outputExists := true
  clock := 5
  entries :=
    [ flowEntry 1 slotF1, flowEntry 2 slotF2, flowEntry 3 slotF3, flowEntry 4 slotF4,
      flowEntry 5 { checkpoint := .complete writeFailCk5 } ]

/-- The event trace of the `envWriteFail` run. -/
def writeFailEvents : List Ev :=
  [ .analyzeDoc "doc", .visualDoc "doc", .synthCall, .schemaCall, .codeApiCall 0 ]

/-- The Step 6 failure checkpoint: pinned at `"code_generated"` with the
`validation_failed` flag and the error message. -/
def valFailCk6 : Checkpoint where
  step := "code_generated"
  timestamp := 5
  data := { analysis_results := some [0], visual_results := some [0],
            synthesized := some 0, schema := some 0, code := some (Code.api 0),
            file_identifiers := some ["doc"],
            errMsg := some "Code validation failed: validator down",
            validation_failed := true }

/-- The output root the `envValFail` run leaves behind. -/
def valFailRoot : FS where
  outputExists := true
  clock := 6
  entries :=
    [ flowEntry 1 slotF1, flowEntry 2 slotF2, flowEntry 3 slotF3, flowEntry 4 slotF4,
      flowEntry 5 slotF5,
      flowEntry 6 { checkpoint := .complete valFailCk6 } ]

/-- The event trace of the `envValFail` run. -/
def valFailEvents : List Ev :=
  [ .analyzeDoc "doc", .visualDoc "doc", .synthCall, .schemaCall, .codeApiCall 0,
    .validateCall ]

/-- The Step 5 checkpoint of the `envApiFail` run: the wrapper swallowed
the three API failures and stored the fallback template as a normal
completion. -/
def afCk5 : Checkpoint where
  step := "code_generated"
  timestamp := 4
  data := { analysis_results := some [0], visual_results := some [0],
            synthesized := some 0, schema := some 0,
            code := some (Code.fallbackTemplate (some 0)),
            file_identifiers := some ["doc"] }

/-- The Step 6 checkpoint of the `envApiFail` run. -/
def afCk6 : Checkpoint where
  step := "code_validated"
  timestamp := 5
  data := { analysis_results := some [0], visual_results := some [0],
            synthesized := some 0, schema := some 0,
            code := some (Code.markedValidated (Code.fallbackTemplate (some 0))),
            validation := some okVR, file_identifiers := some ["doc"] }

/-- The output root of the completed `envApiFail` run. -/
def apiFailRoot : FS where
  outputExists := true
  clock := 7
  entries :=
    [ flowEntry 1 slotF1, flowEntry 2 slotF2, flowEntry 3 slotF3, flowEntry 4 slotF4,
      flowEntry 5 { checkpoint := .complete afCk5,
                    codeFile := some (Code.fallbackTemplate (some 0)) },
      flowEntry 6 { checkpoint := .complete afCk6,
                    codeFile := some (Code.markedValidated (Code.fallbackTemplate (some 0))),
                    extractionResults := some [0], validationFile := some okVR },
      flowEntry 7 { checkpoint := .complete run1Ck7, mdCodeFile := some (Code.api 0) } ]

/-- The event trace of the `envApiFail` run: three API attempts, then the
pipeline continues normally. -/
def apiFailEvents : List Ev :=
  [ .analyzeDoc "doc", .visualDoc "doc", .synthCall, .schemaCall, .codeApiCall 0,
    .codeApiCall 1, .codeApiCall 2, .validateCall, .execExtractionCode,
    .contentAnalysisCall, .mdGenCall false, .execMarkdownCode ]

/-- The final locals of the completed `envApiFail` run. -/
def apiFailState : RunSt :=
  { analysisResults := some [0], visualResults := some [0], synthesized := some 0,
    jsonSchema := some 0,
    extractionCode := some (Code.markedValidated (Code.fallbackTemplate (some 0))),
    validationResult := some okVR,
    step1Id := 1, step2Id := some 2, step3Id := 3, step4Id := 4, step5Id := 5,
    step6Id := 6, step7Id := some 7 }

/-- The Step 5 checkpoint written into the reused slot by the resumed run
after the write failure. -/
def retryCk5 : Checkpoint where
  step := "code_generated"
  timestamp := 5
  data := { analysis_results := some [0], visual_results := some [0],
            synthesized := some 0, schema := some 0, code := some (Code.api 0),
            file_identifiers := some ["doc"] }

/-- The Step 6 checkpoint of the resumed run. -/
def retryCk6 : Checkpoint where
  step := "code_validated"
  timestamp := 6
  data := { analysis_results := some [0], visual_results := some [0],
            synthesized := some 0, schema := some 0,
            code := some (Code.markedValidated (Code.api 0)),
            validation := some okVR, file_identifiers := some ["doc"] }

/-- The Step 7 checkpoint of the resumed run. -/
def retryCk7 : Checkpoint where
  step := "markdown_converted"
  timestamp := 7
  data := { file_identifiers := some ["doc"],
            content_analysis := some { hasError := false, val := 0 },
            markdown_converter_code := some (Code.api 0), json_files_count := some 1 }

/-- The output root after the resumed `okEnv` run on `writeFailRoot`:
Step 5 re-ran inside slot `flow5`, no extra slot was allocated for it. -/
def retryRoot : FS where
  outputExists := true
  clock := 8
  entries :=
    [ flowEntry 1 slotF1, flowEntry 2 slotF2, flowEntry 3 slotF3, flowEntry 4 slotF4,
      flowEntry 5 { checkpoint := .complete retryCk5, codeFile := some (Code.api 0) },
      flowEntry 6 { checkpoint := .complete retryCk6,
                    codeFile := some (Code.markedValidated (Code.api 0)),
                    extractionResults := some [0], validationFile := some okVR },
      flowEntry 7 { checkpoint := .complete retryCk7, mdCodeFile := some (Code.api 0) } ]

/-- The event trace of the resumed run: no re-analysis, one fresh
generation attempt, then the normal tail of the pipeline. -/
def retryEvents : List Ev :=
  [ .codeApiCall 0, .validateCall, .execExtractionCode, .contentAnalysisCall,
    .mdGenCall false, .execMarkdownCode ]

/-- The final locals of the resumed run.  `step4Id` is `5` because the
failure checkpoint in slot 5 is at `"schema"` and the scan's last
`"schema"` match wins. -/
def retryState : RunSt :=
  { analysisResults := some [0], visualResults := some [0], synthesized := some 0,
    jsonSchema := some 0, extractionCode := some (Code.markedValidated (Code.api 0)),
    validationResult := some okVR,
    step1Id := 1, step2Id := some 2, step3Id := 3, step4Id := 5, step5Id := 5,
    step6Id := 6, step7Id := some 7 }

/-- Step 3 checkpoint of the no-visual run: `visual_results` is recorded
as the empty list. -/
def nvSynthCk : Checkpoint where
  step := "synthesized"
  timestamp := 1
  data := { analysis_results := some [0], visual_results := some [],
            synthesized := some 0, file_identifiers := some ["doc"] }

/-- Step 4 checkpoint of the no-visual run. -/
def nvSchemaCk : Checkpoint where
  step := "schema"
  timestamp := 2
  data := { analysis_results := some [0], visual_results := some [],
            synthesized := some 0, schema := some 0, file_identifiers := some ["doc"] }

/-- Step 5 checkpoint of the no-visual run. -/
def nvCodeGenCk : Checkpoint where
  step := "code_generated"
  timestamp := 3
  data := { analysis_results := some [0], visual_results := some [],
            synthesized := some 0, schema := some 0, code := some (Code.api 0),
            file_identifiers := some ["doc"] }

/-- Step 6 checkpoint of the no-visual run. -/
def nvValidatedCk : Checkpoint where
  step := "code_validated"
  timestamp := 4
  data := { analysis_results := some [0], visual_results := some [],
            synthesized := some 0, schema := some 0,
            code := some (Code.markedValidated (Code.api 0)),
            validation := some okVR, file_identifiers := some ["doc"] }

/-- Step 7 checkpoint of the no-visual run. -/
def nvMarkdownCk : Checkpoint where
  step := "markdown_converted"
  timestamp := 5
  data := { file_identifiers := some ["doc"],
            content_analysis := some { hasError := false, val := 0 },
            markdown_converter_code := some (Code.api 0), json_files_count := some 1 }

/-- The output root of the completed no-visual `okEnv` run: six slots,
Step 2 never allocated one. -/
def noVisRoot : FS where
  outputExists := true
  clock := 6
  entries :=
    [ flowEntry 1 slotF1,
      flowEntry 2 { checkpoint := .complete nvSynthCk, step3Result := some 0 },
      flowEntry 3 { checkpoint := .complete nvSchemaCk, step4Result := some 0,
                    schemaFile := some 0 },
      flowEntry 4 { checkpoint := .complete nvCodeGenCk, codeFile := some (Code.api 0) },
      flowEntry 5 { checkpoint := .complete nvValidatedCk,
                    codeFile := some (Code.markedValidated (Code.api 0)),
                    extractionResults := some [0], validationFile := some okVR },
      flowEntry 6 { checkpoint := .complete nvMarkdownCk,
                    mdCodeFile := some (Code.api 0) } ]

/-- The event trace of the no-visual run: no visual-analysis call. -/
def noVisEvents : List Ev :=
  [ .analyzeDoc "doc", .synthCall, .schemaCall, .codeApiCall 0, .validateCall,
    .execExtractionCode, .contentAnalysisCall, .mdGenCall false, .execMarkdownCode ]

/-- The final locals of the no-visual run. -/
def noVisState : RunSt :=
  { analysisResults := some [0], visualResults := some [], synthesized := some 0,
    jsonSchema := some 0, extractionCode := some (Code.markedValidated (Code.api 0)),
    validationResult := some okVR,
    step1Id := 1, step2Id := none, step3Id := 2, step4Id := 3, step5Id := 4,
    step6Id := 5, step7Id := some 6 }

/-! ## Theorems

### The decimal codec -/

theorem natDigitsAux_append (fuel : Nat) : ∀ (n : Nat) (acc : List Char),
    natDigitsAux fuel n acc = natDigitsAux fuel n [] ++ acc := by
  induction fuel with
  | zero => intro n acc; simp [natDigitsAux]
  | succ fuel ih =>
    intro n acc
    by_cases h : n < 10
    · simp [natDigitsAux, h]
    · simp only [natDigitsAux, if_neg h]
      rw [ih (n / 10) (decChar (n % 10) :: acc), ih (n / 10) [decChar (n % 10)]]
      simp

theorem natDigitsAux_fuel : ∀ (n fuel₁ fuel₂ : Nat), n < fuel₁ → n < fuel₂ →
    natDigitsAux fuel₁ n [] = natDigitsAux fuel₂ n [] := by
  intro n
  induction n using Nat.strong_induction_on with
  | _ n ih =>
    intro fuel₁ fuel₂ h₁ h₂
    cases fuel₁ with
    | zero => omega
    | succ f₁ =>
      cases fuel₂ with
      | zero => omega
      | succ f₂ =>
        by_cases h : n < 10
        · simp [natDigitsAux, h]
        · have hd : n / 10 < n := Nat.div_lt_self (by omega) (by omega)
          simp only [natDigitsAux, if_neg h]
          rw [natDigitsAux_append f₁, natDigitsAux_append f₂,
            ih (n / 10) hd f₁ f₂ (by omega) (by omega)]

theorem natDigits_lt10 {n : Nat} (h : n < 10) : natDigits n = [decChar n] := by
  simp [natDigits, natDigitsAux, h]

theorem natDigits_eq_div10 {n : Nat} (h : 10 ≤ n) :
    natDigits n = natDigits (n / 10) ++ [decChar (n % 10)] := by
  have h1 : natDigits n = natDigitsAux n (n / 10) [decChar (n % 10)] := by
    simp [natDigits, natDigitsAux, Nat.not_lt.2 h]
  have hd : n / 10 < n := Nat.div_lt_self (by omega) (by omega)
  rw [h1, natDigitsAux_append n (n / 10),
    natDigitsAux_fuel (n / 10) n (n / 10 + 1) (by omega) (by omega)]
  rfl

theorem natDigits_ne_nil (n : Nat) : natDigits n ≠ [] := by
  by_cases h : n < 10
  · simp [natDigits_lt10 h]
  · rw [natDigits_eq_div10 (by omega)]; simp

theorem decVal_decChar {d : Nat} (h : d < 10) : decVal? (decChar d) = some d := by
  interval_cases d <;> decide

theorem isDecDigit_decChar {d : Nat} (h : d < 10) : isDecDigit (decChar d) = true := by
  interval_cases d <;> decide

theorem natDigits_all_digits : ∀ n : Nat, ∀ c ∈ natDigits n, isDecDigit c = true := by
  intro n
  induction n using Nat.strong_induction_on with
  | _ n ih =>
    by_cases h : n < 10
    · rw [natDigits_lt10 h]
      intro c hc
      simp at hc
      subst hc
      exact isDecDigit_decChar h
    · rw [natDigits_eq_div10 (by omega)]
      intro c hc
      rcases List.mem_append.mp hc with hc | hc
      · exact ih (n / 10) (Nat.div_lt_self (by omega) (by omega)) c hc
      · simp at hc
        subst hc
        exact isDecDigit_decChar (Nat.mod_lt n (by omega))

theorem readDigits_append (acc : Nat) (xs ys : List Char) :
    readDigits acc (xs ++ ys) = readDigits (readDigits acc xs) ys := by
  simp [readDigits, List.foldl_append]

theorem readDigits_natDigits : ∀ n : Nat, readDigits 0 (natDigits n) = n := by
  intro n
  induction n using Nat.strong_induction_on with
  | _ n ih =>
    by_cases h : n < 10
    · rw [natDigits_lt10 h]
      simp [readDigits, decVal_decChar h]
    · rw [natDigits_eq_div10 (by omega), readDigits_append,
        ih (n / 10) (Nat.div_lt_self (by omega) (by omega))]
      simp [readDigits, decVal_decChar (Nat.mod_lt n (by omega))]
      omega

theorem parseAllDigits_natDigits (n : Nat) : parseAllDigits (natDigits n) = some n := by
  have hne : natDigits n ≠ [] := natDigits_ne_nil n
  have hall : (natDigits n).all isDecDigit = true :=
    List.all_eq_true.mpr (natDigits_all_digits n)
  simp [parseAllDigits, List.isEmpty_iff, hne, hall, readDigits_natDigits]

theorem isPySpace_false_of_digit {c : Char} (h : isDecDigit c = true) :
    isPySpace c = false := by
  unfold isPySpace
  apply decide_eq_false
  rintro (rfl | rfl | rfl | rfl) <;> exact absurd h (by decide)

theorem dropWhile_eq_self_of_all {p : Char → Bool} {l : List Char}
    (h : ∀ c ∈ l, p c = false) : l.dropWhile p = l := by
  cases l with
  | nil => rfl
  | cons c cs => simp [List.dropWhile, h c (by simp)]

theorem strip_digits {l : List Char} (h : ∀ c ∈ l, isDecDigit c = true) :
    ((l.dropWhile isPySpace).reverse.dropWhile isPySpace).reverse = l := by
  have h1 : l.dropWhile isPySpace = l :=
    dropWhile_eq_self_of_all fun c hc => isPySpace_false_of_digit (h c hc)
  rw [h1]
  have h2 : l.reverse.dropWhile isPySpace = l.reverse :=
    dropWhile_eq_self_of_all fun c hc =>
      isPySpace_false_of_digit (h c (List.mem_reverse.mp hc))
  rw [h2, List.reverse_reverse]

theorem digit_ne_plus {c : Char} (h : isDecDigit c = true) : c ≠ '+' := by
  rintro rfl; exact absurd h (by decide)

theorem digit_ne_minus {c : Char} (h : isDecDigit c = true) : c ≠ '-' := by
  rintro rfl; exact absurd h (by decide)

theorem head_not_sign {l : List Char} (h : ∀ c ∈ l, isDecDigit c = true) :
    ¬(l.head? = some '+') ∧ ¬(l.head? = some '-') := by
  cases l with
  | nil => simp
  | cons c cs =>
    have hc := h c (by simp)
    refine ⟨fun hh => ?_, fun hh => ?_⟩
    · simp at hh; subst hh; exact absurd hc (by decide)
    · simp at hh; subst hh; exact absurd hc (by decide)

theorem pyIntChars_natDigits (n : Nat) : pyIntChars (natDigits n) = some (n : Int) := by
  unfold pyIntChars
  simp only [strip_digits (natDigits_all_digits n)]
  rw [if_neg (head_not_sign (natDigits_all_digits n)).1,
    if_neg (head_not_sign (natDigits_all_digits n)).2,
    parseAllDigits_natDigits]
  rfl

theorem strip_minus_digits (l : List Char) (h : ∀ c ∈ l, isDecDigit c = true) :
    ((('-' :: l).dropWhile isPySpace).reverse.dropWhile isPySpace).reverse
      = '-' :: l := by
  have h1 : ('-' :: l).dropWhile isPySpace = '-' :: l := by
    have hm : isPySpace '-' = false := by decide
    simp [List.dropWhile_cons, hm]
  rw [h1]
  have h2 : ∀ c ∈ ('-' :: l).reverse, isPySpace c = false := by
    intro c hc
    rw [List.mem_reverse] at hc
    rcases List.mem_cons.mp hc with rfl | hc
    · decide
    · exact isPySpace_false_of_digit (h c hc)
  rw [dropWhile_eq_self_of_all h2, List.reverse_reverse]

theorem pyInt_intToStr (i : Int) : pyIntChars (intToStr i).data = some i := by
  by_cases h : i < 0
  · have hdata : (intToStr i).data = '-' :: natDigits i.natAbs := by
      simp [intToStr, h]
    rw [hdata]
    unfold pyIntChars
    simp only [strip_minus_digits _ (natDigits_all_digits i.natAbs)]
    rw [if_neg (by simp), if_pos (by simp)]
    simp only [List.tail_cons, parseAllDigits_natDigits]
    simp [Option.map]
    rw [abs_of_neg h, neg_neg]
  · have hdata : (intToStr i).data = natDigits i.natAbs := by
      simp [intToStr, h, natToStr]
    rw [hdata, pyIntChars_natDigits]
    congr 1
    exact Int.natAbs_of_nonneg (not_lt.mp h)

theorem intToStr_data_inj {i j : Int} (h : (intToStr i).data = (intToStr j).data) :
    i = j := by
  have hi := pyInt_intToStr i
  rw [h, pyInt_intToStr j] at hi
  exact (Option.some_inj.mp hi).symm

theorem streq_flowName (i j : Int) : streq (flowName i) (flowName j) = decide (i = j) := by
  by_cases h : i = j
  · subst h
    simp [streq]
  · simp only [decide_eq_false h]
    apply Bool.eq_false_iff.mpr
    intro hb
    apply h
    have hdata : (flowName i).data = (flowName j).data := beq_iff_eq.mp hb
    apply intToStr_data_inj
    simpa [flowName] using hdata

theorem strStarts_flowName (i : Int) : strStarts (flowName i) "flow" = true := by
  have hfl : "flow".data = ['f', 'l', 'o', 'w'] := rfl
  simp [strStarts, flowName, hfl, List.isPrefixOf]

theorem flowNum_flowEntry (i : Int) (d : Bool) (s : Slot) (h : d = true) :
    flowNum? { name := flowName i, isDir := d, slot := s } = some i := by
  subst h
  have hdrop : (flowName i).data.drop 4 = (intToStr i).data := rfl
  simp [flowNum?, strStarts_flowName, hdrop, ← pyInt_intToStr i]

/-! ### C8: slot allocation (`Settings.get_next_flow_id`) -/

theorem le_foldl_max (xs : List Int) : ∀ (x y : Int), (y = x ∨ y ∈ xs) →
    y ≤ xs.foldl max x := by
  induction xs with
  | nil =>
    rintro x y (rfl | h)
    · simp
    · simp at h
  | cons a l ih =>
    rintro x y (rfl | h)
    · exact le_trans (le_max_left y a) (ih (max y a) (max y a) (Or.inl rfl))
    · rcases List.mem_cons.mp h with rfl | h
      · exact le_trans (le_max_right x y) (ih (max x y) (max x y) (Or.inl rfl))
      · exact ih (max x a) y (Or.inr h)

theorem foldl_max_mem (xs : List Int) : ∀ x : Int,
    xs.foldl max x = x ∨ xs.foldl max x ∈ xs := by
  induction xs with
  | nil => intro x; left; rfl
  | cons a l ih =>
    intro x
    rw [List.foldl_cons]
    rcases ih (max x a) with h | h
    · rcases max_cases x a with ⟨h1, _⟩ | ⟨h1, _⟩
      · left; rw [h, h1]
      · right; rw [h, h1]; simp
    · right; simp [h]

/-- C8.  `get_next_flow_id` returns 1 when the output root is missing or
no directory matching the flow pattern parses, and otherwise the maximum
parsed trailing integer among matching directories plus one; an entry
whose trailing part is not a valid integer is skipped without affecting
the result. -/
theorem claim_C8_next_slot_id (fs : FS) :
    (fs.outputExists = false → get_next_flow_id fs = 1)
    ∧ (fs.entries.filterMap flowNum? = [] → get_next_flow_id fs = 1)
    ∧ (fs.outputExists = true → fs.entries.filterMap flowNum? ≠ [] →
        ∃ m, m ∈ fs.entries.filterMap flowNum?
          ∧ (∀ y ∈ fs.entries.filterMap flowNum?, y ≤ m)
          ∧ get_next_flow_id fs = m + 1)
    ∧ (∀ e : Entry, flowNum? e = none →
        get_next_flow_id { fs with entries := e :: fs.entries } = get_next_flow_id fs) := by
  refine ⟨?_, ?_, ?_, ?_⟩
  · intro h; simp [get_next_flow_id, h]
  · intro h
    unfold get_next_flow_id
    rw [h]
    split <;> rfl
  · intro ho hne
    unfold get_next_flow_id
    rw [ho]
    rcases hl : fs.entries.filterMap flowNum? with _ | ⟨x, l⟩
    · exact absurd hl hne
    · refine ⟨l.foldl max x, ?_, ?_, by simp⟩
      · rcases foldl_max_mem l x with h | h
        · simp [h]
        · simp [h]
      · intro y hy
        rcases List.mem_cons.mp hy with rfl | hy
        · exact le_foldl_max l y y (Or.inl rfl)
        · exact le_foldl_max l x y (Or.inr hy)
  · intro e he
    unfold get_next_flow_id
    simp [List.filterMap_cons_none he]

/-- C8 witness: slots 2 and 5 plus the unparsable name "flowx" yield 6. -/
theorem claim_C8_next_slot_id_witness :
    fsAllocEx.entries.filterMap flowNum? ≠ []
    ∧ (∃ m, m ∈ fsAllocEx.entries.filterMap flowNum?
        ∧ (∀ y ∈ fsAllocEx.entries.filterMap flowNum?, y ≤ m)
        ∧ get_next_flow_id fsAllocEx = m + 1) :=
  ⟨by decide, (claim_C8_next_slot_id fsAllocEx).2.2.1 rfl (by decide)⟩

/-! ### C7: `load_checkpoint` never raises -/

/-- C7.  `load_checkpoint` returns `none` when no checkpoint file exists;
when the file exists it deserializes inside `try/except`, so a
deserialization failure is logged and becomes `none` while a successful
parse is returned; the function is total (it never propagates an
exception — its only outcomes are the two below). -/
theorem claim_C7_load_checkpoint :
    load_checkpoint CkptFileState.absent = none
    ∧ (∀ st e, jsonLoadCkpt st = Except.error e → load_checkpoint st = none)
    ∧ (∀ st c, jsonLoadCkpt st = Except.ok c → load_checkpoint st = some c) := by
  refine ⟨rfl, ?_, ?_⟩
  · intro st e h
    cases st with
    | absent => rfl
    | truncated => rfl
    | complete c => simp [jsonLoadCkpt] at h
  · intro st c h
    cases st with
    | absent => simp [jsonLoadCkpt] at h
    | truncated => simp [jsonLoadCkpt] at h
    | complete c' =>
      simp [jsonLoadCkpt] at h
      simp [load_checkpoint, jsonLoadCkpt, h]

/-- C7 witness: a truncated file loads as absent, a complete one as its
record. -/
theorem claim_C7_load_checkpoint_witness :
    load_checkpoint CkptFileState.truncated = none
    ∧ load_checkpoint (CkptFileState.complete validatedCkpt) = some validatedCkpt :=
  ⟨claim_C7_load_checkpoint.2.1 CkptFileState.truncated "Expecting value" rfl,
   claim_C7_load_checkpoint.2.2 (CkptFileState.complete validatedCkpt) validatedCkpt rfl⟩

/-! ### C2: `save_checkpoint` is not atomic -/

/-- C2 counterexample.  The claim — every crash point leaves either the
prior checkpoint intact or the new one complete — fails: stopping
`save_checkpoint` right after its `open(path, 'w')` (prefix of length 1)
leaves the slot truncated, which is neither. -/
theorem claim_C2_counterexample :
    ¬ ∀ (step : String) (ts : Nat) (data : CkptData) (prior : CkptFileState) (k : Nat),
        runWriteOps prior ((save_checkpoint_ops step ts data).take k) = prior
        ∨ runWriteOps prior ((save_checkpoint_ops step ts data).take k)
          = CkptFileState.complete { step := step, timestamp := ts, data := data } := by
  intro hcl
  have h := hcl "schema" 0 {} (CkptFileState.complete validatedCkpt) 1
  simp [save_checkpoint_ops, runWriteOps, applyWriteOp] at h

/-- C2 amended.  `save_checkpoint` writes the serialized record directly
into `checkpoint.json`: the completed operation sequence replaces the slot
with the new record, but the sequence truncates the file in place first —
a crash after the truncation and before the completed write leaves a
truncated checkpoint (the prior record is destroyed) — and it contains no
rename of a temporary file.  `load_checkpoint` later degrades the
truncated file to absent. -/
theorem claim_C2_amended (step : String) (ts : Nat) (data : CkptData)
    (prior : CkptFileState) :
    runWriteOps prior (save_checkpoint_ops step ts data)
      = CkptFileState.complete { step := step, timestamp := ts, data := data }
    ∧ runWriteOps prior ((save_checkpoint_ops step ts data).take 1)
      = CkptFileState.truncated
    ∧ (∀ c, FsWriteOp.renameInto c ∉ save_checkpoint_ops step ts data)
    ∧ load_checkpoint CkptFileState.truncated = none := by
  refine ⟨rfl, rfl, ?_, rfl⟩
  intro c h
  simp [save_checkpoint_ops] at h

/-! ### C5: which slot a scan selects -/

theorem findValidatedAux_eq_head (l : List Entry) :
    findValidatedAux l = (validatedMatches l).head? := by
  induction l with
  | nil => rfl
  | cons e es ih =>
    unfold findValidatedAux validatedMatches
    unfold validatedMatches at ih
    rw [List.filterMap_cons]
    cases hfn : flowNum? e with
    | none => simpa using ih
    | some n =>
      cases hlc : load_checkpoint e.slot.checkpoint with
      | none => simpa using ih
      | some c =>
        by_cases hstep : c.step = "code_validated" ∨ c.step = "code"
        · simp [hstep]
        · simpa [hstep] using ih

theorem findFailedStep5Aux_eq_head (l : List Entry) :
    findFailedStep5Aux l = (failedStep5Matches l).head? := by
  induction l with
  | nil => rfl
  | cons e es ih =>
    unfold findFailedStep5Aux failedStep5Matches
    unfold failedStep5Matches at ih
    rw [List.filterMap_cons]
    cases hfn : flowNum? e with
    | none => simpa using ih
    | some n =>
      cases hlc : load_checkpoint e.slot.checkpoint with
      | none => simpa using ih
      | some c =>
        by_cases hstep : c.step = "schema" ∧ c.data.code_generation_failed
        · simp [hstep]
        · simpa [hstep] using ih

theorem findMarkdownAux_eq_head (l : List Entry) :
    findMarkdownAux l = (markdownMatches l).head? := by
  induction l with
  | nil => rfl
  | cons e es ih =>
    unfold findMarkdownAux markdownMatches
    unfold markdownMatches at ih
    rw [List.filterMap_cons]
    cases hfn : flowNum? e with
    | none => simpa using ih
    | some n =>
      cases hlc : load_checkpoint e.slot.checkpoint with
      | none => simpa using ih
      | some c =>
        by_cases hstep : c.step = "markdown_converted"
        · simp [hstep]
        · simpa [hstep] using ih

/-- C5 counterexample.  With the directory listing `[flow2, flow1]`, both
holding terminal Step 6 checkpoints, the Step 6 scan selects slot 2 even
though slot 1 also matches: the executor takes the first match in
iteration order, and `iterdir` order is not numeric. -/
theorem claim_C5_counterexample :
    (findValidated fsTwoValidated).map Prod.fst = some 2
    ∧ (validatedMatches fsTwoValidated.entries).map Prod.fst = [2, 1] := by
  constructor <;> decide

/-- C5 amended.  The Step 5/6/7 pre-scans select the **first** matching
slot in directory-iteration order (so the lowest-numbered slot wins only
when the listing happens to be sorted ascending by parsed id, in which
case the selected slot is indeed minimal); and in the initial resume
scan — which sorts matches ascending and then lets each later checkpoint
overwrite earlier loads — it is the **highest** slot in the processed
order whose data wins for its stage. -/
theorem claim_C5_amended (fs : FS) :
    (fs.outputExists = true →
      findValidated fs = (validatedMatches fs.entries).head?
      ∧ findFailedStep5 fs = (failedStep5Matches fs.entries).head?
      ∧ findMarkdown fs = (markdownMatches fs.entries).head?)
    ∧ (fs.outputExists = true →
        ((validatedMatches fs.entries).map Prod.fst).Sorted (· ≤ ·) →
        ∀ q, findValidated fs = some q →
        ∀ p ∈ validatedMatches fs.entries, q.1 ≤ p.1)
    ∧ (∀ (st : RunSt) (l : List (Int × Checkpoint)) (n : Int) (c : Checkpoint),
        c.step = "schema" →
        ((l ++ [(n, c)]).foldl (fun b p => loadBagFrom b p.2) st).jsonSchema
          = c.data.schema) := by
  refine ⟨?_, ?_, ?_⟩
  · intro ho
    refine ⟨?_, ?_, ?_⟩
    · simp [findValidated, ho, findValidatedAux_eq_head]
    · simp [findFailedStep5, ho, findFailedStep5Aux_eq_head]
    · simp [findMarkdown, ho, findMarkdownAux_eq_head]
  · intro ho hsort q hq p hp
    rw [findValidated, if_pos ho, findValidatedAux_eq_head] at hq
    rcases hm : validatedMatches fs.entries with _ | ⟨m, ms⟩
    · rw [hm] at hq; simp at hq
    · rw [hm] at hq
      simp at hq
      subst hq
      rw [hm] at hsort hp
      simp at hsort
      rcases List.mem_cons.mp hp with rfl | hp
      · exact le_refl _
      · exact hsort.1 p.1 p.2 (by simpa using hp)
  · intro st l n c hstep
    rw [List.foldl_append]
    simp [loadBagFrom, hstep]

/-! ### C10: the step-result codec -/

theorem string_mk_data (s : String) : String.mk s.data = s := rfl

theorem skipWs_cons_of_not {c : Char} (h : isJsonWs c = false) (l : List Char) :
    skipWs (c :: l) = c :: l := by
  simp [skipWs, List.dropWhile_cons, h]

theorem parseStrBody_dump (s : List Char) (rest : List Char) :
    parseStrBody (escStr s ++ '"' :: rest) = some (s, rest) := by
  induction s with
  | nil =>
    cases rest with
    | nil => rfl
    | cons r rs => rfl
  | cons c cs ih =>
    by_cases h1 : c = '"'
    · subst h1
      show parseStrBody ('\\' :: '"' :: (escStr cs ++ '"' :: rest)) = _
      simp only [parseStrBody, unescChar, Char.reduceEq, reduceIte, ih]
    · by_cases h2 : c = '\\'
      · subst h2
        show parseStrBody ('\\' :: '\\' :: (escStr cs ++ '"' :: rest)) = _
        simp only [parseStrBody, unescChar, Char.reduceEq, reduceIte, ih]
      · by_cases h3 : c = '\n'
        · subst h3
          show parseStrBody ('\\' :: 'n' :: (escStr cs ++ '"' :: rest)) = _
          simp only [parseStrBody, unescChar, Char.reduceEq, reduceIte, ih]
        · by_cases h4 : c = '\t'
          · subst h4
            show parseStrBody ('\\' :: 't' :: (escStr cs ++ '"' :: rest)) = _
            simp only [parseStrBody, unescChar, Char.reduceEq, reduceIte, ih]
          · by_cases h5 : c = '\r'
            · subst h5
              show parseStrBody ('\\' :: 'r' :: (escStr cs ++ '"' :: rest)) = _
              simp only [parseStrBody, unescChar, Char.reduceEq, reduceIte, ih]
            · have hesc : escStr (c :: cs) = c :: escStr cs := by
                simp [escStr, escChar, h1, h2, h3, h4, h5]
              rw [hesc, List.cons_append]
              rcases htail : escStr cs ++ '"' :: rest with _ | ⟨e, tail⟩
              · exact absurd htail (by simp)
              · rw [parseStrBody, if_neg h1, if_neg h2, ← htail, ih]

theorem takeWhile_digits_append {xs rest : List Char}
    (hall : ∀ c ∈ xs, isDecDigit c = true) (hrest : headNotDigit rest) :
    (xs ++ rest).takeWhile isDecDigit = xs
    ∧ (xs ++ rest).dropWhile isDecDigit = rest := by
  induction xs with
  | nil =>
    simp only [List.nil_append]
    cases rest with
    | nil => simp
    | cons r rs =>
      have := hrest r (by simp)
      simp [List.takeWhile_cons, List.dropWhile_cons, this]
  | cons x xs ih =>
    have hx := hall x (by simp)
    have ihh := ih (fun c hc => hall c (by simp [hc]))
    simp [List.takeWhile_cons, List.dropWhile_cons, hx, ihh.1, ihh.2]

theorem natDigits_head_ne_zero : ∀ n : Nat, 1 ≤ n → (natDigits n).head? ≠ some '0' := by
  intro n
  induction n using Nat.strong_induction_on with
  | _ n ih =>
    intro hn
    by_cases h : n < 10
    · rw [natDigits_lt10 h]
      intro hc
      simp at hc
      have : n = 0 := by
        by_contra hne
        interval_cases n <;> revert hc <;> decide
      omega
    · rw [natDigits_eq_div10 (by omega)]
      rcases hd : natDigits (n / 10) with _ | ⟨c, t⟩
      · exact absurd hd (natDigits_ne_nil _)
      · intro hc
        simp at hc
        apply ih (n / 10) (Nat.div_lt_self (by omega) (by omega)) (by omega)
        rw [hd, hc]
        rfl

theorem parseNumDigits_natDigits (n : Nat) (rest : List Char)
    (hrest : headNotDigit rest) :
    parseNumDigits (natDigits n ++ rest) = some (n, rest) := by
  have hsplit := takeWhile_digits_append (natDigits_all_digits n) hrest
  unfold parseNumDigits
  rw [hsplit.1, hsplit.2]
  rw [if_neg (by simp [List.isEmpty_iff, natDigits_ne_nil n])]
  rw [if_neg ?_, readDigits_natDigits]
  rintro ⟨hz, hlen⟩
  by_cases h1 : n < 10
  · rw [natDigits_lt10 h1] at hlen
    simp at hlen
  · exact natDigits_head_ne_zero n (by omega) hz

/-- All the characters a decimal digit is not, for the parser dispatch. -/
theorem digit_not_special {c : Char} (h : isDecDigit c = true) :
    c ≠ 'n' ∧ c ≠ 't' ∧ c ≠ 'f' ∧ c ≠ '"' ∧ c ≠ '[' ∧ c ≠ '{' ∧ c ≠ '-'
    ∧ isJsonWs c = false ∧ c ≠ ']' ∧ c ≠ '\x7d' ∧ c ≠ ',' := by
  refine ⟨?_, ?_, ?_, ?_, ?_, ?_, ?_, ?_, ?_, ?_, ?_⟩ <;>
    first
      | (rintro rfl; exact absurd h (by decide))
      | (apply decide_eq_false
         rintro (rfl | rfl | rfl | rfl) <;> exact absurd h (by decide))

theorem parse_dump_null (fuel : Nat) (rest : List Char) (hf : 1 ≤ fuel) :
    parseVal fuel (dumpVal PyVal.null ++ rest) = some (PyVal.null, rest) := by
  cases fuel with
  | zero => omega
  | succ f =>
    show parseVal (f + 1) ('n' :: 'u' :: 'l' :: 'l' :: rest) = _
    rw [parseVal, skipWs_cons_of_not (by decide)]
    simp

theorem parse_dump_bool (b : Bool) (fuel : Nat) (rest : List Char) (hf : 1 ≤ fuel) :
    parseVal fuel (dumpVal (PyVal.bool b) ++ rest) = some (PyVal.bool b, rest) := by
  cases fuel with
  | zero => omega
  | succ f =>
    cases b
    · show parseVal (f + 1) ('f' :: 'a' :: 'l' :: 's' :: 'e' :: rest) = _
      rw [parseVal, skipWs_cons_of_not (by decide)]
      simp
    · show parseVal (f + 1) ('t' :: 'r' :: 'u' :: 'e' :: rest) = _
      rw [parseVal, skipWs_cons_of_not (by decide)]
      simp

theorem parse_dump_int (i : Int) (fuel : Nat) (rest : List Char) (hf : 1 ≤ fuel)
    (hrest : headNotDigit rest) :
    parseVal fuel (dumpVal (PyVal.int i) ++ rest) = some (PyVal.int i, rest) := by
  cases fuel with
  | zero => omega
  | succ f =>
    by_cases hneg : i < 0
    · have hdata : dumpVal (PyVal.int i) = '-' :: natDigits i.natAbs := by
        simp [dumpVal, intToStr, hneg]
      rw [hdata]
      show parseVal (f + 1) ('-' :: (natDigits i.natAbs ++ rest)) = _
      rw [parseVal, skipWs_cons_of_not (by decide)]
      simp only [Char.reduceEq, reduceIte, parseNumDigits_natDigits _ _ hrest]
      have habs : (Int.ofNat i.natAbs) = -i := Int.ofNat_natAbs_of_nonpos (le_of_lt hneg)
      simp only [Option.some.injEq, Prod.mk.injEq, PyVal.int.injEq]
      refine ⟨?_, trivial⟩
      rw [show ((i.natAbs : Nat) : Int) = Int.ofNat i.natAbs from rfl, habs, neg_neg]
    · have hdata : dumpVal (PyVal.int i) = natDigits i.natAbs := by
        simp [dumpVal, intToStr, hneg, natToStr]
      rcases hd : natDigits i.natAbs with _ | ⟨c, t⟩
      · exact absurd hd (natDigits_ne_nil _)
      · have hc : isDecDigit c = true := by
          apply natDigits_all_digits i.natAbs
          rw [hd]; simp
        obtain ⟨n1, n2, n3, n4, n5, n6, n7, n8, _, _, _⟩ := digit_not_special hc
        rw [hdata, hd]
        show parseVal (f + 1) (c :: (t ++ rest)) = _
        rw [parseVal, skipWs_cons_of_not n8]
        simp only [if_neg n1, if_neg n2, if_neg n3, if_neg n4, if_neg n5, if_neg n6,
          if_neg n7, if_pos hc]
        rw [show c :: (t ++ rest) = (c :: t) ++ rest from rfl, ← hd,
          parseNumDigits_natDigits _ _ hrest]
        simp only [Option.some.injEq, Prod.mk.injEq, PyVal.int.injEq]
        refine ⟨?_, trivial⟩
        rw [Int.natAbs_of_nonneg (not_lt.mp hneg)]

theorem parse_dump_str (s : String) (fuel : Nat) (rest : List Char) (hf : 1 ≤ fuel) :
    parseVal fuel (dumpVal (PyVal.str s) ++ rest) = some (PyVal.str s, rest) := by
  cases fuel with
  | zero => omega
  | succ f =>
    have hdata : dumpVal (PyVal.str s) ++ rest
        = '"' :: (escStr s.data ++ '"' :: rest) := by
      simp [dumpVal, dumpStrChars]
    rw [hdata, parseVal, skipWs_cons_of_not (by decide)]
    simp only [Char.reduceEq, reduceIte, parseStrBody_dump, string_mk_data]

theorem headNotDigit_cons (c : Char) (h : isDecDigit c = false) (l : List Char) :
    headNotDigit (c :: l) := by
  intro c' hc'
  simp at hc'
  rw [← hc']
  exact h

theorem dumpVal_head (v : PyVal) : ∃ c t, dumpVal v = c :: t
    ∧ isJsonWs c = false ∧ c ≠ ']' ∧ c ≠ '\x7d' := by
  cases v with
  | null => exact ⟨'n', _, rfl, by decide, by decide, by decide⟩
  | bool b =>
    cases b
    · exact ⟨'f', _, rfl, by decide, by decide, by decide⟩
    · exact ⟨'t', _, rfl, by decide, by decide, by decide⟩
  | int i =>
    by_cases h : i < 0
    · exact ⟨'-', natDigits i.natAbs, by simp [dumpVal, intToStr, h], by decide,
        by decide, by decide⟩
    · rcases hd : natDigits i.natAbs with _ | ⟨c, t⟩
      · exact absurd hd (natDigits_ne_nil _)
      · have hc : isDecDigit c = true := by
          apply natDigits_all_digits i.natAbs
          rw [hd]; simp
        obtain ⟨_, _, _, _, _, _, _, h8, h9, h10, _⟩ := digit_not_special hc
        exact ⟨c, t, by simp [dumpVal, intToStr, h, natToStr, hd], h8, h9, h10⟩
  | str s => exact ⟨'"', _, rfl, by decide, by decide, by decide⟩
  | list xs => exact ⟨'[', _, rfl, by decide, by decide, by decide⟩
  | dict kvs => exact ⟨'{', _, rfl, by decide, by decide, by decide⟩

theorem dumpElems_cons (x : PyVal) (xs : List PyVal) :
    ∃ u, dumpElems (x :: xs) = dumpVal x ++ u := by
  cases xs with
  | nil => exact ⟨[], by simp [dumpElems]⟩
  | cons y ys => exact ⟨',' :: dumpElems (y :: ys), rfl⟩

theorem dumpVal_len_pos (v : PyVal) : 1 ≤ (dumpVal v).length := by
  obtain ⟨c, t, hd, _⟩ := dumpVal_head v
  rw [hd]
  simp

mutual

theorem fuelFor_le : ∀ v : PyVal, fuelFor v ≤ 2 * (dumpVal v).length
  | .null => by have := dumpVal_len_pos PyVal.null; simp only [fuelFor]; omega
  | .bool b => by
    have := dumpVal_len_pos (PyVal.bool b); cases b <;> simp only [fuelFor] <;> omega
  | .int i => by have := dumpVal_len_pos (PyVal.int i); simp only [fuelFor]; omega
  | .str s => by have := dumpVal_len_pos (PyVal.str s); simp only [fuelFor]; omega
  | .list [] => by have := dumpVal_len_pos (PyVal.list []); simp only [fuelFor]; omega
  | .list (x :: xs) => by
    have h := fuelForElems_le (x :: xs)
    have hlen : (dumpVal (PyVal.list (x :: xs))).length
        = (dumpElems (x :: xs)).length + 2 := by
      show ('[' :: (dumpElems (x :: xs) ++ [']'])).length = _
      simp
    rw [show fuelFor (PyVal.list (x :: xs)) = 1 + fuelForElems (x :: xs) from rfl, hlen]
    omega
  | .dict [] => by have := dumpVal_len_pos (PyVal.dict []); simp only [fuelFor]; omega
  | .dict (m :: ms) => by
    have h := fuelForMembers_le (m :: ms)
    have hlen : (dumpVal (PyVal.dict (m :: ms))).length
        = (dumpMembers (m :: ms)).length + 2 := by
      show ('{' :: (dumpMembers (m :: ms) ++ ['\x7d'])).length = _
      simp
    rw [show fuelFor (PyVal.dict (m :: ms)) = 1 + fuelForMembers (m :: ms) from rfl, hlen]
    omega

theorem fuelForElems_le : ∀ xs : List PyVal, fuelForElems xs ≤ 2 * (dumpElems xs).length + 1
  | [] => by rw [show fuelForElems [] = 0 from rfl]; omega
  | [x] => by
    have h1 := fuelFor_le x
    have hsh : dumpElems [x] = dumpVal x := rfl
    rw [show fuelForElems [x] = 1 + max (fuelFor x) 0 from rfl, hsh]
    rcases max_choice (fuelFor x) 0 with h | h <;> rw [h] <;> omega
  | x :: y :: ys => by
    have h1 := fuelFor_le x
    have h2 := fuelForElems_le (y :: ys)
    have hsh : dumpElems (x :: y :: ys) = dumpVal x ++ ',' :: dumpElems (y :: ys) := rfl
    rw [show fuelForElems (x :: y :: ys)
        = 1 + max (fuelFor x) (fuelForElems (y :: ys)) from rfl, hsh]
    have hlen : (dumpVal x ++ ',' :: dumpElems (y :: ys)).length
        = (dumpVal x).length + 1 + (dumpElems (y :: ys)).length := by
      simp
      omega
    rw [hlen]
    rcases max_choice (fuelFor x) (fuelForElems (y :: ys)) with h | h <;> rw [h] <;> omega

theorem fuelForMembers_le : ∀ ms : List (String × PyVal),
    fuelForMembers ms ≤ 2 * (dumpMembers ms).length + 1
  | [] => by rw [show fuelForMembers [] = 0 from rfl]; omega
  | [(k, v)] => by
    have h1 := fuelFor_le v
    have hsh : dumpMembers [(k, v)] = dumpStrChars k.data ++ ':' :: dumpVal v := rfl
    rw [show fuelForMembers [(k, v)] = 1 + max (fuelFor v) 0 from rfl, hsh]
    have hlen : (dumpStrChars k.data ++ ':' :: dumpVal v).length
        = (dumpStrChars k.data).length + 1 + (dumpVal v).length := by
      simp
      omega
    rw [hlen]
    rcases max_choice (fuelFor v) 0 with h | h <;> rw [h] <;> omega
  | (k, v) :: m :: ms => by
    have h1 := fuelFor_le v
    have h2 := fuelForMembers_le (m :: ms)
    have hsh : dumpMembers ((k, v) :: m :: ms)
        = dumpStrChars k.data ++ ':' :: dumpVal v ++ ',' :: dumpMembers (m :: ms) := rfl
    rw [show fuelForMembers ((k, v) :: m :: ms)
        = 1 + max (fuelFor v) (fuelForMembers (m :: ms)) from rfl, hsh]
    have hlen : (dumpStrChars k.data ++ ':' :: dumpVal v ++ ',' :: dumpMembers (m :: ms)).length
        = (dumpStrChars k.data).length + 1 + (dumpVal v).length + 1
          + (dumpMembers (m :: ms)).length := by
      simp
      omega
    rw [hlen]
    rcases max_choice (fuelFor v) (fuelForMembers (m :: ms)) with h | h <;> rw [h] <;> omega

end

mutual

theorem parse_dumpVal : ∀ (v : PyVal) (fuel : Nat) (rest : List Char),
    fuelFor v ≤ fuel → headNotDigit rest →
    parseVal fuel (dumpVal v ++ rest) = some (v, rest)
  | .null, fuel, rest, hf, _ => parse_dump_null fuel rest hf
  | .bool b, fuel, rest, hf, _ => parse_dump_bool b fuel rest hf
  | .int i, fuel, rest, hf, hr => parse_dump_int i fuel rest hf hr
  | .str s, fuel, rest, hf, _ => parse_dump_str s fuel rest hf
  | .list [], fuel, rest, hf, _ => by
    cases fuel with
    | zero => exact absurd hf (by simp [fuelFor])
    | succ f =>
      show parseVal (f + 1) (('[' :: (dumpElems [] ++ [']'])) ++ rest) = _
      rw [show ('[' :: (dumpElems [] ++ [']'])) ++ rest = '[' :: ']' :: rest from rfl]
      rw [parseVal, skipWs_cons_of_not (by decide)]
      simp only [Char.reduceEq, reduceIte]
      rw [skipWs_cons_of_not (by decide)]
      simp
  | .list (x :: xs), fuel, rest, hf, _ => by
    cases fuel with
    | zero => exact absurd hf (by simp [fuelFor])
    | succ f =>
      have hfe : fuelForElems (x :: xs) ≤ f := by
        simp only [fuelFor] at hf
        omega
      obtain ⟨c0, t0, hdx, hw0, hb0, _⟩ := dumpVal_head x
      obtain ⟨u, hdE⟩ := dumpElems_cons x xs
      have hshape : dumpElems (x :: xs) ++ ']' :: rest
          = c0 :: (t0 ++ u ++ ']' :: rest) := by
        rw [hdE, hdx]
        simp [List.append_assoc]
      show parseVal (f + 1) (('[' :: (dumpElems (x :: xs) ++ [']'])) ++ rest) = _
      rw [show ('[' :: (dumpElems (x :: xs) ++ [']'])) ++ rest
          = '[' :: (dumpElems (x :: xs) ++ ']' :: rest) from by simp]
      rw [parseVal, skipWs_cons_of_not (by decide)]
      simp only [Char.reduceEq, reduceIte]
      rw [hshape, skipWs_cons_of_not hw0, if_neg (by simp [hb0]), ← hshape,
        parse_dumpElems x xs f rest hfe]
  | .dict [], fuel, rest, hf, _ => by
    cases fuel with
    | zero => exact absurd hf (by simp [fuelFor])
    | succ f =>
      show parseVal (f + 1) (('{' :: (dumpMembers [] ++ ['\x7d'])) ++ rest) = _
      rw [show ('{' :: (dumpMembers [] ++ ['\x7d'])) ++ rest = '{' :: '\x7d' :: rest from rfl]
      rw [parseVal, skipWs_cons_of_not (by decide)]
      simp only [Char.reduceEq, reduceIte]
      rw [skipWs_cons_of_not (by decide)]
      simp
  | .dict ((k, v) :: ms), fuel, rest, hf, _ => by
    cases fuel with
    | zero => exact absurd hf (by simp [fuelFor])
    | succ f =>
      have hfm : fuelForMembers ((k, v) :: ms) ≤ f := by
        simp only [fuelFor] at hf
        omega
      have hshape : dumpMembers ((k, v) :: ms) ++ '\x7d' :: rest
          = '"' :: ((escStr k.data ++ '"' :: ':' :: dumpVal v
              ++ dumpMembersTail ms) ++ '\x7d' :: rest) := by
        cases ms with
        | nil =>
          show (dumpStrChars k.data ++ ':' :: dumpVal v) ++ '\x7d' :: rest = _
          simp [dumpStrChars, dumpMembersTail]
        | cons m ms' =>
          show (dumpStrChars k.data ++ ':' :: dumpVal v ++ ',' :: dumpMembers (m :: ms'))
              ++ '\x7d' :: rest = _
          simp [dumpStrChars, dumpMembersTail]
      show parseVal (f + 1) (('{' :: (dumpMembers ((k, v) :: ms) ++ ['\x7d'])) ++ rest) = _
      rw [show ('{' :: (dumpMembers ((k, v) :: ms) ++ ['\x7d'])) ++ rest
          = '{' :: (dumpMembers ((k, v) :: ms) ++ '\x7d' :: rest) from by simp]
      rw [parseVal, skipWs_cons_of_not (by decide)]
      simp only [Char.reduceEq, reduceIte]
      rw [hshape, skipWs_cons_of_not (by decide), if_neg (by simp), ← hshape,
        parse_dumpMembers k v ms f rest hfm]
termination_by v fuel rest hf hr => sizeOf v

theorem parse_dumpElems : ∀ (x : PyVal) (xs : List PyVal) (fuel : Nat) (rest : List Char),
    fuelForElems (x :: xs) ≤ fuel →
    parseElems fuel (dumpElems (x :: xs) ++ ']' :: rest) = some (x :: xs, rest)
  | x, [], fuel, rest, hf => by
    cases fuel with
    | zero => exact absurd hf (by simp [fuelForElems])
    | succ f =>
      have hfx : fuelFor x ≤ f := by
        rw [show fuelForElems [x] = 1 + max (fuelFor x) (fuelForElems []) from rfl] at hf
        have := le_max_left (fuelFor x) (fuelForElems ([] : List PyVal))
        omega
      rw [show dumpElems [x] ++ ']' :: rest = dumpVal x ++ ']' :: rest from rfl]
      rw [parseElems,
        parse_dumpVal x f (']' :: rest) hfx (headNotDigit_cons ']' (by decide) rest)]
      simp [skipWs_cons_of_not (show isJsonWs ']' = false from by decide)]
  | x, y :: ys, fuel, rest, hf => by
    cases fuel with
    | zero => exact absurd hf (by simp [fuelForElems])
    | succ f =>
      have hf' : 1 + max (fuelFor x) (fuelForElems (y :: ys)) ≤ f + 1 := by
        rw [show fuelForElems (x :: y :: ys)
            = 1 + max (fuelFor x) (fuelForElems (y :: ys)) from rfl] at hf
        exact hf
      have hfx : fuelFor x ≤ f := by
        have := le_max_left (fuelFor x) (fuelForElems (y :: ys))
        omega
      have hfe2 : fuelForElems (y :: ys) ≤ f := by
        have := le_max_right (fuelFor x) (fuelForElems (y :: ys))
        omega
      have hsh : dumpElems (x :: y :: ys) ++ ']' :: rest
          = dumpVal x ++ (',' :: (dumpElems (y :: ys) ++ ']' :: rest)) := by
        show (dumpVal x ++ ',' :: dumpElems (y :: ys)) ++ ']' :: rest = _
        simp
      rw [hsh, parseElems,
        parse_dumpVal x f (',' :: (dumpElems (y :: ys) ++ ']' :: rest)) hfx
          (headNotDigit_cons ',' (by decide) _)]
      simp only [skipWs_cons_of_not (show isJsonWs ',' = false from by decide)]
      rw [parse_dumpElems y ys f rest hfe2]
termination_by x xs fuel rest hf => 1 + sizeOf x + sizeOf xs

theorem parse_dumpMembers : ∀ (k : String) (v : PyVal) (ms : List (String × PyVal))
    (fuel : Nat) (rest : List Char),
    fuelForMembers ((k, v) :: ms) ≤ fuel →
    parseMembers fuel (dumpMembers ((k, v) :: ms) ++ '\x7d' :: rest)
      = some ((k, v) :: ms, rest)
  | k, v, [], fuel, rest, hf => by
    cases fuel with
    | zero => exact absurd hf (by simp [fuelForMembers])
    | succ f =>
      have hfv : fuelFor v ≤ f := by
        rw [show fuelForMembers [(k, v)]
            = 1 + max (fuelFor v) (fuelForMembers []) from rfl] at hf
        have := le_max_left (fuelFor v) (fuelForMembers ([] : List (String × PyVal)))
        omega
      have hsh : dumpMembers [(k, v)] ++ '\x7d' :: rest
          = '"' :: (escStr k.data ++ '"' :: (':' :: (dumpVal v ++ '\x7d' :: rest))) := by
        show (dumpStrChars k.data ++ ':' :: dumpVal v) ++ '\x7d' :: rest = _
        simp [dumpStrChars]
      rw [hsh, parseMembers]
      simp only [skipWs_cons_of_not (show isJsonWs '"' = false from by decide),
        skipWs_cons_of_not (show isJsonWs ':' = false from by decide),
        parseStrBody_dump,
        parse_dumpVal v f ('\x7d' :: rest) hfv (headNotDigit_cons '\x7d' (by decide) rest)]
      simp [skipWs_cons_of_not (show isJsonWs '\x7d' = false from by decide),
        string_mk_data]
  | k, v, (k2, v2) :: ms', fuel, rest, hf => by
    cases fuel with
    | zero => exact absurd hf (by simp [fuelForMembers])
    | succ f =>
      have hf' : 1 + max (fuelFor v) (fuelForMembers ((k2, v2) :: ms')) ≤ f + 1 := by
        rw [show fuelForMembers ((k, v) :: (k2, v2) :: ms')
            = 1 + max (fuelFor v) (fuelForMembers ((k2, v2) :: ms')) from rfl] at hf
        exact hf
      have hfv : fuelFor v ≤ f := by
        have := le_max_left (fuelFor v) (fuelForMembers ((k2, v2) :: ms'))
        omega
      have hfm2 : fuelForMembers ((k2, v2) :: ms') ≤ f := by
        have := le_max_right (fuelFor v) (fuelForMembers ((k2, v2) :: ms'))
        omega
      have hsh : dumpMembers ((k, v) :: (k2, v2) :: ms') ++ '\x7d' :: rest
          = '"' :: (escStr k.data ++ '"'
              :: (':' :: (dumpVal v
                  ++ ',' :: (dumpMembers ((k2, v2) :: ms') ++ '\x7d' :: rest)))) := by
        show (dumpStrChars k.data ++ ':' :: dumpVal v
            ++ ',' :: dumpMembers ((k2, v2) :: ms')) ++ '\x7d' :: rest = _
        simp [dumpStrChars]
      rw [hsh, parseMembers]
      simp only [skipWs_cons_of_not (show isJsonWs '"' = false from by decide),
        skipWs_cons_of_not (show isJsonWs ':' = false from by decide),
        parseStrBody_dump,
        parse_dumpVal v f (',' :: (dumpMembers ((k2, v2) :: ms') ++ '\x7d' :: rest)) hfv
          (headNotDigit_cons ',' (by decide) _)]
      simp only [skipWs_cons_of_not (show isJsonWs ',' = false from by decide)]
      rw [parse_dumpMembers k2 v2 ms' f rest hfm2]
termination_by k v ms fuel rest hf => 1 + sizeOf v + sizeOf ms
decreasing_by all_goals (simp_wf; omega)

end

/-- `json.load` recovers any value from its own `json.dump` output: the
whole-file parse of `dumpVal v` is exactly `v`. -/
theorem parseJson_dumpVal (v : PyVal) : parseJsonChars (dumpVal v) = some v := by
  have hf : fuelFor v ≤ 2 * (dumpVal v).length + 2 :=
    le_trans (fuelFor_le v) (by omega)
  have h := parse_dumpVal v (2 * (dumpVal v).length + 2) [] hf
    (by intro c hc; simp at hc)
  rw [List.append_nil] at h
  rw [parseJsonChars, h]
  simp [skipWs]

/-- C10: step-result round trip.  With the default `.json` filename,
`load_step_result` after `save_step_result` returns a dict or list value
unchanged (json.dump then json.load); but a plain string is written raw
and then **re-parsed as JSON** on load, so the call returns the JSON parse
of the string — `"not json"` for instance comes back absent, not as
itself. -/
theorem claim_C10_step_result_roundtrip :
    (∀ kvs : List (String × PyVal),
      load_step_result (some (save_step_result (.dict kvs))) = some (.dict kvs))
    ∧ (∀ xs : List PyVal,
      load_step_result (some (save_step_result (.list xs))) = some (.list xs))
    ∧ (∀ s : String,
      load_step_result (some (save_step_result (.str s))) = parseJsonChars s.data)
    ∧ load_step_result (some (save_step_result (.str "not json"))) = none := by
  refine ⟨fun kvs => ?_, fun xs => ?_, fun s => rfl, rfl⟩
  · exact parseJson_dumpVal (.dict kvs)
  · exact parseJson_dumpVal (.list xs)

/-- C5 amended, witness: the characterization applied to the two-slot
fixture, and the override applied to a concrete `"schema"` checkpoint. -/
theorem claim_C5_amended_witness :
    findValidated fsTwoValidated = (validatedMatches fsTwoValidated.entries).head?
    ∧ (([] ++ [((3 : Int), Checkpoint.mk "schema" 0 { schema := some 7 })]).foldl
        (fun (b : RunSt) (p : Int × Checkpoint) => loadBagFrom b p.2)
        ({} : RunSt)).jsonSchema = some 7 :=
  ⟨((claim_C5_amended fsTwoValidated).1 rfl).1,
   (claim_C5_amended fsTwoValidated).2.2 {} [] 3 (Checkpoint.mk "schema" 0 { schema := some 7 }) rfl⟩

/-! ### The whole-run claims, settled on the concrete worlds -/

set_option maxHeartbeats 4000000 in
/-- C1, counterexample.  Re-running the pipeline with resume enabled
against the output root of a completed run is **not** free of
re-execution: the second run re-executes the stored extraction code
(Step 6.5) and the stored markdown converter (Step 7.5). -/
theorem claim_C1_counterexample :
    runPipeline okEnv ["doc"] true false FS.empty
      = (run1Root, run1Events, Except.ok run1State)
    ∧ Ev.execExtractionCode ∈ (runPipeline okEnv ["doc"] true true run1Root).2.1
    ∧ Ev.execMarkdownCode ∈ (runPipeline okEnv ["doc"] true true run1Root).2.1 := by
  have h : (runPipeline okEnv ["doc"] true true run1Root).2.1
      = [Ev.execExtractionCode, Ev.execMarkdownCode] := rfl
  refine ⟨rfl, ?_, ?_⟩ <;> rw [h] <;> simp

set_option maxHeartbeats 4000000 in
/-- C1, amended.  Re-running with resume against the completed root
succeeds, performs no collaborator call, and leaves the output root — in
particular every checkpoint file — byte-identical; but it does re-execute
the stored generated code: the resumed trace is exactly the Step 6.5 and
Step 7.5 dynamic executions. -/
theorem claim_C1_amended :
    runPipeline okEnv ["doc"] true false FS.empty
      = (run1Root, run1Events, Except.ok run1State)
    ∧ runPipeline okEnv ["doc"] true true run1Root
      = (run1Root, [Ev.execExtractionCode, Ev.execMarkdownCode], Except.ok run1State) :=
  ⟨rfl, rfl⟩

set_option maxHeartbeats 2000000 in
/-- C3, counterexample.  The checkpoint Step 7 writes on successful
completion is **not** cumulative: upstream outputs that exist at that
point — the schema of Step 4, the code of Step 5/6, the analysis of
Step 1 — are all absent from its data. -/
theorem claim_C3_counterexample :
    runPipeline okEnv ["doc"] true false FS.empty
      = (run1Root, run1Events, Except.ok run1State)
    ∧ (run1Root.flowSlot 7).checkpoint = CkptFileState.complete run1Ck7
    ∧ run1Ck4.data.schema = some 0
    ∧ run1Ck7.data.schema = none
    ∧ run1Ck7.data.code = none
    ∧ run1Ck7.data.analysis_results = none
    ∧ run1Ck7.data.synthesized = none :=
  ⟨rfl, rfl, rfl, rfl, rfl, rfl, rfl⟩

set_option maxHeartbeats 2000000 in
/-- C3, amended.  The checkpoints of Steps 1-6 are cumulative — each
stage's data carries every upstream output produced so far — but Step 7's
`markdown_converted` checkpoint carries only its own outputs (content
analysis, converter code, file count) plus the identifiers. -/
theorem claim_C3_amended :
    runPipeline okEnv ["doc"] true false FS.empty
      = (run1Root, run1Events, Except.ok run1State)
    ∧ (run1Root.flowSlot 5).checkpoint = CkptFileState.complete run1Ck5
    ∧ (run1Root.flowSlot 6).checkpoint = CkptFileState.complete run1Ck6
    ∧ (run1Root.flowSlot 7).checkpoint = CkptFileState.complete run1Ck7
    ∧ (run1Ck5.data.analysis_results = some [0] ∧ run1Ck5.data.visual_results = some [0]
       ∧ run1Ck5.data.synthesized = some 0 ∧ run1Ck5.data.schema = some 0
       ∧ run1Ck5.data.code = some (Code.api 0))
    ∧ (run1Ck6.data.analysis_results = some [0] ∧ run1Ck6.data.visual_results = some [0]
       ∧ run1Ck6.data.synthesized = some 0 ∧ run1Ck6.data.schema = some 0
       ∧ run1Ck6.data.code = some (Code.markedValidated (Code.api 0))
       ∧ run1Ck6.data.validation = some okVR)
    ∧ (run1Ck7.data.analysis_results = none ∧ run1Ck7.data.visual_results = none
       ∧ run1Ck7.data.synthesized = none ∧ run1Ck7.data.schema = none
       ∧ run1Ck7.data.code = none ∧ run1Ck7.data.validation = none
       ∧ run1Ck7.data.content_analysis = some { hasError := false, val := 0 }
       ∧ run1Ck7.data.markdown_converter_code = some (Code.api 0)) :=
  ⟨rfl, rfl, rfl, rfl,
   ⟨rfl, rfl, rfl, rfl, rfl⟩,
   ⟨rfl, rfl, rfl, rfl, rfl, rfl⟩,
   ⟨rfl, rfl, rfl, rfl, rfl, rfl, rfl, rfl⟩⟩

set_option maxHeartbeats 2000000 in
/-- C4, counterexample.  When the mandatory Step 3 collaborator
(`coordinate_analysis`) raises, the run aborts with **nothing** written to
the step's slot: `flow3` exists but holds no checkpoint at all, and no
failure flag is recorded anywhere in the root. -/
theorem claim_C4_counterexample :
    runPipeline envSynthFail ["doc"] true false FS.empty
      = (synthFailRoot, [Ev.analyzeDoc "doc", Ev.visualDoc "doc", Ev.synthCall],
         Except.error "orchestrator down")
    ∧ (synthFailRoot.flowSlot 3).checkpoint = CkptFileState.absent
    ∧ synthFailRoot.entries.all
        (fun e =>
          match load_checkpoint e.slot.checkpoint with
          | some c => !(c.data.code_generation_failed || c.data.validation_failed
              || c.data.markdown_conversion_failed)
          | none => true) = true :=
  ⟨rfl, rfl, rfl⟩

set_option maxHeartbeats 4000000 in
/-- C4, amended.  Only Steps 5 and 6 implement the failure discipline:
a failing write of `extraction_code.py` durably pins the slot at the
previous identity `"schema"` with `code_generation_failed` and the error
message before the exception propagates, and a failing validation
collaborator pins the slot at `"code_generated"` with `validation_failed`
before propagating. -/
theorem claim_C4_amended :
    (runPipeline envWriteFail ["doc"] true false FS.empty
      = (writeFailRoot, writeFailEvents, Except.error "disk full")
     ∧ (writeFailRoot.flowSlot 5).checkpoint = CkptFileState.complete writeFailCk5
     ∧ writeFailCk5.step = "schema"
     ∧ writeFailCk5.data.code_generation_failed = true
     ∧ writeFailCk5.data.errMsg = some "Code generation failed: disk full")
    ∧ (runPipeline envValFail ["doc"] true false FS.empty
      = (valFailRoot, valFailEvents, Except.error "validator down")
     ∧ (valFailRoot.flowSlot 6).checkpoint = CkptFileState.complete valFailCk6
     ∧ valFailCk6.step = "code_generated"
     ∧ valFailCk6.data.validation_failed = true
     ∧ valFailCk6.data.errMsg = some "Code validation failed: validator down") :=
  ⟨⟨rfl, rfl, rfl, rfl, rfl⟩, ⟨rfl, rfl, rfl, rfl, rfl⟩⟩

set_option maxHeartbeats 2000000 in
/-- C6, counterexample.  A code-generation collaborator that fails on all
three attempts does **not** leave the slot pinned at `"schema"` with a
failure flag: the wrapper returns the fallback template instead of
raising, the run completes, and the slot's checkpoint is a normal
`"code_generated"` record holding the fallback template with no flag. -/
theorem claim_C6_counterexample :
    runPipeline envApiFail ["doc"] true false FS.empty
      = (apiFailRoot, apiFailEvents, Except.ok apiFailState)
    ∧ (apiFailRoot.flowSlot 5).checkpoint = CkptFileState.complete afCk5
    ∧ afCk5.step = "code_generated"
    ∧ afCk5.data.code_generation_failed = false
    ∧ afCk5.data.code = some (Code.fallbackTemplate (some 0)) :=
  ⟨rfl, rfl, rfl, rfl, rfl⟩

set_option maxHeartbeats 4000000 in
/-- C6, amended.  The `"schema"`-pinned failure checkpoint is produced by
a failing **write** of `extraction_code.py`, not by API failure; and a
subsequent resumed run does retry code generation in that same slot
number: the pre-scan finds slot 5, Step 5 re-runs there, and the slot ends
with a `"code_generated"` checkpoint while no extra slot is allocated for
it. -/
theorem claim_C6_amended :
    runPipeline envWriteFail ["doc"] true false FS.empty
      = (writeFailRoot, writeFailEvents, Except.error "disk full")
    ∧ findFailedStep5 writeFailRoot = some 5
    ∧ runPipeline okEnv ["doc"] true true writeFailRoot
      = (retryRoot, retryEvents, Except.ok retryState)
    ∧ retryState.step5Id = 5
    ∧ (retryRoot.flowSlot 5).checkpoint = CkptFileState.complete retryCk5
    ∧ retryCk5.step = "code_generated" :=
  ⟨rfl, rfl, rfl, rfl, rfl, rfl⟩

set_option maxHeartbeats 2000000 in
/-- C9: optional-stage gap tolerance.  Disabling visual analysis skips
Step 2 entirely — for every environment and state, the step reduces to
setting `visual_results` to the empty list — and the `okEnv` run with
visual analysis disabled still completes through schema generation, code
generation, validation and conversion; every checkpoint that records
`visual_results` records the empty list, never an error value, and the
downstream synthesized/schema inputs received the empty list. -/
theorem claim_C9_optional_stage_gap :
    (∀ (env : Env) (docs : List String) (cs : CompletedSteps) (st : RunSt),
      step2run env docs false cs st = pure { st with visualResults := some [] })
    ∧ runPipeline okEnv ["doc"] false false FS.empty
      = (noVisRoot, noVisEvents, Except.ok noVisState)
    ∧ noVisState.visualResults = some []
    ∧ noVisState.jsonSchema = some 0
    ∧ noVisState.extractionCode = some (Code.markedValidated (Code.api 0))
    ∧ (noVisRoot.flowSlot 3).checkpoint = CkptFileState.complete nvSchemaCk
    ∧ nvSchemaCk.data.schema = some 0
    ∧ (noVisRoot.flowSlot 4).checkpoint = CkptFileState.complete nvCodeGenCk
    ∧ nvCodeGenCk.data.code = some (Code.api 0)
    ∧ Ev.visualDoc "doc" ∉ noVisEvents
    ∧ noVisRoot.entries.all
        (fun e =>
          match load_checkpoint e.slot.checkpoint with
          | some c => c.data.visual_results == some [] || c.data.visual_results == none
          | none => true) = true :=
  ⟨fun _ _ _ _ => rfl, rfl, rfl, rfl, rfl, rfl, rfl, rfl, rfl, by decide, rfl⟩

end CrawlAgent
